import Mathlib

/-!
Verification development for a Telegram quiz bot (single module, quiz_bot.py).

The bot loads a validated multiple-choice question bank, runs a full-bank
quiz in private chats, and a timed 5-question session per group chat with a
session-scoped scoreboard and a persistent cumulative leaderboard.

The embedding below is a shallow model of the module: Python dicts become
association lists, the Telegram transport becomes logs of posted polls and
messages inside the state, randomness (shuffles, samples) and the job queue
are externalized into event parameters, and real time is dropped (session
ids, which the source derives from the clock and relies on only for
freshness, become a monotone counter).
-/

namespace QuizBot

/-! ## Association-list helpers (Python dict semantics) -/

/-- Lookup of the first binding of a key, as in a Python dict read. -/
def alookup {κ ν : Type} [DecidableEq κ] (k : κ) : List (κ × ν) → Option ν
  | [] => none
  | (k₁, v) :: rest => if k = k₁ then some v else alookup k rest

/-- Update-or-append, as in a Python dict assignment: the first binding of
the key is replaced in place, and a missing key is appended at the end. -/
def aset {κ ν : Type} [DecidableEq κ] (k : κ) (x : ν) : List (κ × ν) → List (κ × ν)
  | [] => [(k, x)]
  | (k₁, v) :: rest => if k = k₁ then (k, x) :: rest else (k₁, v) :: aset k x rest

/-- Deletion of a key, as in Python del / dict.pop. -/
def adel {κ ν : Type} [DecidableEq κ] (k : κ) : List (κ × ν) → List (κ × ν)
  | [] => []
  | (k₁, v) :: rest => if k₁ = k then adel k rest else (k₁, v) :: adel k rest

/-! ## JSON values and the question-bank loader

The source reads questions.json, parses it, and validates the parsed value
in load_questions.  The model starts from the parsed value.  Python treats
bool as a subtype of int, so the isinstance int check accepts booleans. -/

/-- A parsed JSON value. -/
inductive JValue where
  | null : JValue
  | bool (b : Bool) : JValue
  | int (n : Int) : JValue
  | str (s : String) : JValue
  | arr (elems : List JValue) : JValue
  | obj (fields : List (String × JValue)) : JValue
deriving Repr

/-- Lookup of a field of a JSON object. -/
def jlookup (key : String) : List (String × JValue) → Option JValue
  | [] => none
  | (k, v) :: rest => if key = k then some v else jlookup key rest

/-- Coercion to a Python int: actual ints, and booleans, which Python
treats as the ints 0 and 1 for isinstance int and comparisons. -/
def asInt : JValue → Option Int
  | .int n => some n
  | .bool b => some (if b then 1 else 0)
  | _ => none

/-- The per-record validation performed by load_questions: the record must
carry the keys q, opts, answer; opts must be a list of 2 or more entries;
answer must be an int (Python-wise, so booleans included) in range.  Any
record that is not a JSON object fails the checks (in the source via the
key-set test or a TypeError caught by the enclosing handler). -/
def checkRecord (v : JValue) : Bool :=
  match v with
  | .obj fields =>
    match jlookup "q" fields, jlookup "opts" fields, jlookup "answer" fields with
    | some _, some (.arr opts), some ans =>
      decide (2 ≤ opts.length) &&
        (match asInt ans with
         | some n => decide (0 ≤ n) && decide (n < (opts.length : Int))
         | none => false)
    | _, _, _ => false
  | _ => false

/-- load_questions on the parsed file content: the whole bank is rejected
(None) unless the content is a non-empty list whose every record passes
checkRecord; on success the validated list itself is returned. -/
def load_questions (data : JValue) : Option (List JValue) :=
  match data with
  | .arr qs =>
    if qs.isEmpty then none
    else if qs.all checkRecord then some qs else none
  | _ => none

/-! Spec-side failure conditions for C8, phrased in the vocabulary of the
specification rather than of the checker. -/

/-- The record lacks one of the required fields q, opts, answer (a record
that is not an object at all has no fields). -/
def missingField (v : JValue) : Prop :=
  match v with
  | .obj fields =>
    jlookup "q" fields = none ∨ jlookup "opts" fields = none ∨
      jlookup "answer" fields = none
  | _ => True

/-- The record has an opts field that is not a list of at least 2 entries. -/
def badOptions (v : JValue) : Prop :=
  match v with
  | .obj fields =>
    match jlookup "opts" fields with
    | some (.arr opts) => opts.length < 2
    | some _ => True
    | none => False
  | _ => False

/-- The record has a list of options and an answer field, but the answer is
not an integer within the bounds of the option list. -/
def badAnswer (v : JValue) : Prop :=
  match v with
  | .obj fields =>
    match jlookup "opts" fields, jlookup "answer" fields with
    | some (.arr opts), some ans =>
      match asInt ans with
      | some n => n < 0 ∨ (opts.length : Int) ≤ n
      | none => True
    | _, _ => False
  | _ => False

/-! ## Configuration constants -/

/-- Number of questions per group session. -/
def GROUP_QUIZ_LEN : Nat := 5

/-- Seconds each group poll stays open (only its positivity matters here;
real time is outside the embedding). -/
def GROUP_Q_OPEN_PERIOD : Nat := 10

/-! ## The loaded bank and the users, as seen by the handlers

After validation every record carries its text, its option list and an
in-range correct index, so the handler layer works on that projection of a
validated record. -/

/-- A validated question: text, 2-or-more options, correct index in range
(the range bound is carried as a hypothesis by the theorems, not baked into
the type). -/
structure Question where
  text : String
  opts : List String
  answer : Nat
deriving Repr, DecidableEq, Inhabited

/-- The fields of a Telegram user the bot reads.  An absent username is
modelled by the empty string, which Python treats as falsy just like None. -/
structure User where
  id : Nat
  username : String
  firstName : String
  lastName : String
deriving Repr, DecidableEq

/-- Display name choice of _display_name_from_user: the @username when one
is set, else first and last name stripped, else the bare numeric id. -/
def _display_name_from_user (u : User) : String :=
  if u.username ≠ "" then "@" ++ u.username
  else
    let name := (u.firstName ++ " " ++ u.lastName).trim
    if name ≠ "" then name else toString u.id

/-! ## Scoreboard sorting

Both _format_scoreboard and get_group_leaderboard sort rows with the key
(-score, name.lower()) and keep the first limit rows.  Python list.sort is
a stable sort by that key; a stable sort by a total preorder key is
extensionally unique, so the stable insertion sort below is the same
function.  Python string comparison is lexicographic by code point and
str.lower lower-cases the letters (ASCII suffices for the names here). -/

/-- ASCII lower-casing of one character, as str.lower acts on the names. -/
def lowerChar (c : Char) : Char :=
  if 65 ≤ c.toNat ∧ c.toNat ≤ 90 then Char.ofNat (c.toNat + 32) else c

/-- Lexicographic code-point comparison of character lists, as Python
compares strings. -/
def charsLe : List Char → List Char → Bool
  | [], _ => true
  | _ :: _, [] => false
  | a :: as, b :: bs =>
    decide (a.toNat < b.toNat) || (decide (a.toNat = b.toNat) && charsLe as bs)

/-- Case-insensitive name comparison: compare the lower-cased names. -/
def nameLe (a b : String) : Bool :=
  charsLe (a.data.map lowerChar) (b.data.map lowerChar)

/-- Row order of the scoreboards: higher score first, ties by ascending
case-insensitive name. -/
def rowLe (a b : String × Int) : Bool :=
  b.2 < a.2 || (a.2 == b.2 && nameLe a.1 b.1)

/-- Stable insertion of an element into a sorted list: the new element goes
in front of the first element it compares less-or-equal to. -/
def insertRow {α : Type} (le : α → α → Bool) (a : α) : List α → List α
  | [] => [a]
  | b :: l => if le a b then a :: b :: l else b :: insertRow le a l

/-- The stable sort both scoreboard functions apply to their rows. -/
def sortRows (rows : List (String × Int)) : List (String × Int) :=
  rows.foldr (insertRow rowLe) []

/-! ## Option shuffling

Before a poll is posted, the option order is shuffled: idxs is a random
permutation of the option positions, the options are read through it, and
the presented correct index is the position of the original answer inside
idxs. -/

/-- The shuffled option list: the source options read through the
permutation idxs. -/
def shuffledOpts (idxs : List Nat) (opts : List String) : List String :=
  idxs.map (fun i => opts.getD i "")

/-- The presented correct-option index: the position of the original
correct index within the shuffle permutation. -/
def presentedCorrect (idxs : List Nat) (answer : Nat) : Nat :=
  idxs.indexOf answer

/-! ## Mutable state of the module

All module-level dicts of the source, one structure.  The transport is
modelled by append-only logs of posted polls and sent messages, and the
fresh poll ids Telegram would mint become a counter. -/

/-- One entry of a session or cumulative scoreboard dict. -/
structure ScoreEntry where
  name : String
  score : Int
deriving Repr, DecidableEq

/-- One active group session, the per-chat value of GROUP_SESSIONS. -/
structure GroupSession where
  sessionId : Nat
  qids : List Nat
  idx : Nat
  scores : List (Nat × ScoreEntry)
deriving Repr, DecidableEq

/-- The per-poll value of POLL_TO_GROUP. -/
structure GroupPollMeta where
  chatId : Int
  correctOptionId : Nat
  sessionId : Nat
deriving Repr, DecidableEq

/-- The per-poll value of POLL_TO_PRIVATE. -/
structure PrivatePollMeta where
  uid : Nat
  qid : Nat
  correctOptionId : Nat
deriving Repr, DecidableEq

/-- The per-user value of USER_STATE (the timestamp of last_score is
dropped; real time is outside the embedding). -/
structure UserQS where
  order : List Nat
  idx : Nat
  wrongIds : List Nat
  correctCount : Nat
  total : Nat
  mode : String
  lastScore : Option (Nat × Nat)
  history : List (Nat × Nat)
deriving Repr, DecidableEq, Inhabited

/-- A poll posted to the transport. -/
structure PollPost where
  chatId : Int
  question : String
  options : List String
  correctOptionId : Nat
  pollId : Nat
deriving Repr, DecidableEq

/-- The whole mutable state of the module. -/
structure BotState where
  userState : List (Nat × UserQS)
  pollToPrivate : List (Nat × PrivatePollMeta)
  pollToGroup : List (Nat × GroupPollMeta)
  groupSessions : List (Int × GroupSession)
  cumulative : List (Int × List (Nat × ScoreEntry))
  nextPollId : Nat
  nextSessionId : Nat
  polls : List PollPost
  replies : List (Int × String)
deriving Repr, DecidableEq

/-! ## Cumulative score storage (scores.json) -/

/-- add_group_point_cumulative: upsert of the (chat, user) entry, refreshing
the display name and adding delta to the stored score. -/
def add_group_point_cumulative (chatId : Int) (u : User) (delta : Int)
    (scores : List (Int × List (Nat × ScoreEntry))) :
    List (Int × List (Nat × ScoreEntry)) :=
  let c := (alookup chatId scores).getD []
  let e := (alookup u.id c).getD ⟨_display_name_from_user u, 0⟩
  let e1 : ScoreEntry := ⟨_display_name_from_user u, e.score + delta⟩
  aset chatId (aset u.id e1 c) scores

/-- get_group_leaderboard: the chat's cumulative rows sorted by descending
score then ascending lower-cased name, first limit rows. -/
def get_group_leaderboard (scores : List (Int × List (Nat × ScoreEntry)))
    (chatId : Int) (limit : Nat) : List (String × Int) :=
  let c := (alookup chatId scores).getD []
  let rows := c.map (fun kv => (kv.2.name, kv.2.score))
  (sortRows rows).take limit

/-- reset_group_scores: drop every cumulative entry of the chat. -/
def reset_group_scores (chatId : Int)
    (scores : List (Int × List (Nat × ScoreEntry))) :
    List (Int × List (Nat × ScoreEntry)) :=
  adel chatId scores

/-! ## Scoreboard text -/

/-- The ranked rows of _format_scoreboard: the session entries sorted under
rowLe, first limit rows. -/
def scoreboardRows (entries : List (Nat × ScoreEntry)) (limit : Nat) :
    List (String × Int) :=
  (sortRows (entries.map (fun kv => (kv.2.name, kv.2.score)))).take limit

/-- Rendering of the ranked rows as numbered lines. -/
def renderRows : Nat → List (String × Int) → String
  | _, [] => ""
  | i, (name, score) :: rest =>
    "\n" ++ toString i ++ ". " ++ name ++ " — " ++ toString score ++
      renderRows (i + 1) rest

/-- _format_scoreboard: title plus the ranked top rows, or a placeholder
when nobody scored. -/
def _format_scoreboard (title : String) (entries : List (Nat × ScoreEntry))
    (limit : Nat) : String :=
  if entries.isEmpty then title ++ "\nNo scores recorded."
  else title ++ renderRows 1 (scoreboardRows entries limit)

/-! ## Handlers

Each handler is a state transformer.  Randomness is externalized: a shuffle
or sample outcome arrives as an explicit permutation argument, constrained
by hypotheses in the theorems exactly where the library guarantees it (a
random.sample result is the prefix of a random permutation of the
population).  The advance timer run_once schedules is not stored: a timer
firing is just an inbound event carrying the chat id and session id the
source binds into the job, which may arrive at any time, also late or for a
dead session. -/

/-- Message sent when a group start request is rejected. -/
def alreadyActiveMsg : String :=
  "A group quiz session is already in progress. Please wait for it to finish."

/-- Message sent when the bank failed to load. -/
def invalidBankMsg : String :=
  "questions.json invalid. Fix it and redeploy."

/-- Closing hint sent after the session scoreboard. -/
def leaderboardHintMsg : String :=
  "Use /leaderboard to view cumulative scores."

/-- Title of the end-of-session scoreboard. -/
def sessionResultsTitle : String :=
  "Session Results (Top 10)"

/-- send_next_private: post the next private poll for the user, or finish
the run with a score message, recording it in last_score and history. -/
def send_next_private (QUIZ : List Question) (perm : List Nat)
    (s : BotState) (uid : Nat) : BotState :=
  match alookup uid s.userState with
  | none => s
  | some st =>
    if st.order.length ≤ st.idx then
      let st1 := { st with lastScore := some (st.correctCount, st.total),
                           history := st.history ++ [(st.correctCount, st.total)] }
      let doneMsg := "Score: " ++ toString st.correctCount ++ "/" ++
        toString st.total ++ "\nUse /retest to try the " ++
        toString st.wrongIds.length ++ " you missed."
      { s with userState := aset uid st1 s.userState,
               replies := s.replies ++ [(Int.ofNat uid, doneMsg)] }
    else
      let qid := st.order.getD st.idx 0
      let q := QUIZ.getD qid default
      let opts := shuffledOpts perm q.opts
      let cid := presentedCorrect perm q.answer
      let pid := s.nextPollId
      { s with
        polls := s.polls ++ [⟨Int.ofNat uid, q.text, opts, cid, pid⟩],
        nextPollId := s.nextPollId + 1,
        pollToPrivate := aset pid ⟨uid, qid, cid⟩ s.pollToPrivate }

/-- _send_next_group_question: finish the session with the scoreboard when
the cursor is past the end, else post the poll of the current question and
record its POLL_TO_GROUP binding.  sendOk models whether the transport call
posting the poll succeeds; on failure the exception aborts the handler
before anything is recorded. -/
def _send_next_group_question (QUIZ : List Question) (perm : List Nat)
    (sendOk : Bool) (s : BotState) (chatId : Int) : BotState :=
  match alookup chatId s.groupSessions with
  | none => s
  | some sess =>
    if sess.qids.length ≤ sess.idx then
      let board := _format_scoreboard sessionResultsTitle sess.scores 10
      { s with
        replies := s.replies ++ [(chatId, board), (chatId, leaderboardHintMsg)],
        groupSessions := adel chatId s.groupSessions }
    else
      let qid := sess.qids.getD sess.idx 0
      let q := QUIZ.getD qid default
      if sendOk then
        let opts := shuffledOpts perm q.opts
        let cid := presentedCorrect perm q.answer
        let pid := s.nextPollId
        let header := "Q" ++ toString (sess.idx + 1) ++ "/" ++
          toString sess.qids.length ++ ": " ++ q.text
        { s with
          polls := s.polls ++ [⟨chatId, header, opts, cid, pid⟩],
          nextPollId := s.nextPollId + 1,
          pollToGroup := aset pid ⟨chatId, cid, sess.sessionId⟩ s.pollToGroup }
      else s

/-- _group_next_question_job: the armed timer fires; if the chat still runs
the very session the job was bound to, advance the cursor and post the next
question, otherwise do nothing. -/
def _group_next_question_job (QUIZ : List Question) (perm : List Nat)
    (sendOk : Bool) (s : BotState) (chatId : Int) (sessionId : Nat) : BotState :=
  match alookup chatId s.groupSessions with
  | none => s
  | some sess =>
    if sess.sessionId = sessionId then
      let s1 := { s with
        groupSessions := aset chatId { sess with idx := sess.idx + 1 } s.groupSessions }
      _send_next_group_question QUIZ perm sendOk s1 chatId
    else s

/-- quiz_cmd: with an invalid bank only complain; in a group chat start a
session unless one is already running; in a private chat start the
full-bank run.  shuffled is the random permutation of the bank positions
consumed by random.sample and new_order. -/
def quiz_cmd (QUIZ : List Question) (chatId : Int) (isPrivate : Bool)
    (u : User) (shuffled : List Nat) (perm : List Nat) (sendOk : Bool)
    (s : BotState) : BotState :=
  if QUIZ.isEmpty then
    { s with replies := s.replies ++ [(chatId, invalidBankMsg)] }
  else if !isPrivate then
    match alookup chatId s.groupSessions with
    | some _ =>
      { s with replies := s.replies ++ [(chatId, alreadyActiveMsg)] }
    | none =>
      let sid := s.nextSessionId
      let qcount := min GROUP_QUIZ_LEN QUIZ.length
      let qids := shuffled.take qcount
      let startMsg := "Starting group quiz: " ++ toString qcount ++
        " questions. Each question is open for " ++
        toString GROUP_Q_OPEN_PERIOD ++ "s."
      let s1 := { s with
        groupSessions := aset chatId ⟨sid, qids, 0, []⟩ s.groupSessions,
        nextSessionId := s.nextSessionId + 1,
        replies := s.replies ++ [(chatId, startMsg)] }
      _send_next_group_question QUIZ perm sendOk s1 chatId
  else
    let st : UserQS := ⟨shuffled, 0, [], 0, QUIZ.length, "full", none, []⟩
    let s1 := { s with userState := aset u.id st s.userState }
    send_next_private QUIZ perm s1 u.id

/-- retest_cmd: in a private chat, restart over the shuffled previously
wrong questions when there are any. -/
def retest_cmd (QUIZ : List Question) (shuffledWrong : List Nat)
    (perm : List Nat) (s : BotState) (uid : Nat) (isPrivate : Bool) : BotState :=
  if !isPrivate then
    { s with replies := s.replies ++
        [(Int.ofNat uid, "Retest is DM-only. Please DM the bot to use /retest.")] }
  else
    let prevWrong := ((alookup uid s.userState).getD default).wrongIds
    if prevWrong.isEmpty then
      { s with replies := s.replies ++
          [(Int.ofNat uid, "Nothing to retest. Run /quiz first.")] }
    else
      let st : UserQS :=
        ⟨shuffledWrong, 0, [], 0, prevWrong.length, "retest", none, []⟩
      let s1 := { s with userState := aset uid st s.userState }
      send_next_private QUIZ perm s1 uid

/-- Python set.add on the wrong-id set. -/
def insertWrong (qid : Nat) (l : List Nat) : List Nat :=
  if qid ∈ l then l else l ++ [qid]

/-- on_poll_answer: a vote arrived.  For a group poll, count it only when
the poll's bound session id still is the chat's current session and the
chosen option is the presented correct one, mirroring the point into the
cumulative store; otherwise silently do nothing.  For a private poll,
consume the POLL_TO_PRIVATE binding, score, advance and post the next
private question. -/
def on_poll_answer (QUIZ : List Question) (perm : List Nat) (s : BotState)
    (pollId : Nat) (u : User) (optionIds : List Nat) : BotState :=
  let chosen : Option Nat := optionIds.head?
  match alookup pollId s.pollToGroup with
  | some meta =>
    match alookup meta.chatId s.groupSessions with
    | some sess =>
      if sess.sessionId = meta.sessionId ∧ chosen = some meta.correctOptionId then
        let e := (alookup u.id sess.scores).getD ⟨_display_name_from_user u, 0⟩
        let e1 : ScoreEntry := ⟨_display_name_from_user u, e.score + 1⟩
        let sess1 := { sess with scores := aset u.id e1 sess.scores }
        { s with
          groupSessions := aset meta.chatId sess1 s.groupSessions,
          cumulative := add_group_point_cumulative meta.chatId u 1 s.cumulative }
      else s
    | none => s
  | none =>
    match alookup pollId s.pollToPrivate with
    | none => s
    | some meta =>
      let s1 := { s with pollToPrivate := adel pollId s.pollToPrivate }
      match alookup meta.uid s1.userState with
      | none => s1
      | some st =>
        let st1 :=
          if chosen = some meta.correctOptionId then
            { st with correctCount := st.correctCount + 1, idx := st.idx + 1 }
          else
            { st with wrongIds := insertWrong meta.qid st.wrongIds, idx := st.idx + 1 }
        let s2 := { s1 with userState := aset meta.uid st1 s1.userState }
        send_next_private QUIZ perm s2 meta.uid

/-- leaderboard_cmd: read-only report of the cumulative top 10. -/
def leaderboard_cmd (s : BotState) (chatId : Int) : BotState :=
  let rows := get_group_leaderboard s.cumulative chatId 10
  if rows.isEmpty then
    { s with replies := s.replies ++
        [(chatId, "No cumulative scores yet. Run /quiz in this group and answer questions.")] }
  else
    { s with replies := s.replies ++
        [(chatId, "Cumulative Leaderboard (Top 10)" ++ renderRows 1 rows)] }

/-- reset_scores_cmd: in a group chat drop the cumulative entries of the
chat; in a private chat only explain. -/
def reset_scores_cmd (s : BotState) (chatId : Int) (isPrivate : Bool) : BotState :=
  if isPrivate then
    { s with replies := s.replies ++
        [(chatId, "This resets group cumulative leaderboard only. Use it in a group chat.")] }
  else
    { s with
      cumulative := reset_group_scores chatId s.cumulative,
      replies := s.replies ++ [(chatId, "Cumulative group leaderboard reset.")] }

/-! ## The event loop -/

/-- One inbound event of the single-threaded event loop: a command, a vote,
or a timer firing, each carrying the randomness its handler consumes. -/
inductive Event where
  | quizCmd (chatId : Int) (isPrivate : Bool) (u : User)
      (shuffled : List Nat) (perm : List Nat) (sendOk : Bool) : Event
  | retestCmd (uid : Nat) (isPrivate : Bool)
      (shuffledWrong : List Nat) (perm : List Nat) : Event
  | pollAnswer (pollId : Nat) (u : User) (optionIds : List Nat)
      (perm : List Nat) : Event
  | timerFire (chatId : Int) (sessionId : Nat) (perm : List Nat)
      (sendOk : Bool) : Event
  | leaderboardCmd (chatId : Int) : Event
  | resetScoresCmd (chatId : Int) (isPrivate : Bool) : Event
deriving Repr, DecidableEq

/-- Dispatch of one event to its handler. -/
def step (QUIZ : List Question) (s : BotState) : Event → BotState
  | .quizCmd chatId isPrivate u shuffled perm sendOk =>
    quiz_cmd QUIZ chatId isPrivate u shuffled perm sendOk s
  | .retestCmd uid isPrivate shuffledWrong perm =>
    retest_cmd QUIZ shuffledWrong perm s uid isPrivate
  | .pollAnswer pollId u optionIds perm =>
    on_poll_answer QUIZ perm s pollId u optionIds
  | .timerFire chatId sessionId perm sendOk =>
    _group_next_question_job QUIZ perm sendOk s chatId sessionId
  | .leaderboardCmd chatId => leaderboard_cmd s chatId
  | .resetScoresCmd chatId isPrivate => reset_scores_cmd s chatId isPrivate

/-- A run of timer firings bound to one chat and session id, each carrying
its own shuffle and transport outcome. -/
def runTimers (QUIZ : List Question) (chatId : Int) (sessionId : Nat) :
    List (List Nat × Bool) → BotState → BotState
  | [], s => s
  | env :: rest, s =>
    runTimers QUIZ chatId sessionId rest
      (step QUIZ s (.timerFire chatId sessionId env.1 env.2))

/-- The stored cumulative entry of one participant in one chat. -/
def cumScore (scores : List (Int × List (Nat × ScoreEntry))) (chatId : Int)
    (uid : Nat) : Option ScoreEntry :=
  alookup uid ((alookup chatId scores).getD [])

/-! ## Lemmas about the loader -/

theorem alookup_aset {κ ν : Type} [DecidableEq κ] (k k₁ : κ) (x : ν) (l : List (κ × ν)) :
    alookup k (aset k₁ x l) = if k = k₁ then some x else alookup k l := by
  induction l with
  | nil => by_cases h : k = k₁ <;> simp [aset, alookup, h]
  | cons kv rest ih =>
    obtain ⟨k₂, v⟩ := kv
    by_cases h1 : k₁ = k₂
    · subst h1
      by_cases h : k = k₁ <;> simp [aset, alookup, h]
    · by_cases h : k = k₂
      · subst h
        have hne : ¬ k = k₁ := fun hh => h1 hh.symm
        simp [aset, alookup, h1, hne]
      · simp [aset, alookup, h1, h, ih]

theorem alookup_adel {κ ν : Type} [DecidableEq κ] (k k₁ : κ) (l : List (κ × ν)) :
    alookup k (adel k₁ l) = if k = k₁ then none else alookup k l := by
  induction l with
  | nil => by_cases h : k = k₁ <;> simp [adel, alookup, h]
  | cons kv rest ih =>
    obtain ⟨k₂, v⟩ := kv
    by_cases h2 : k₂ = k₁
    · subst h2
      by_cases h : k = k₂
      · subst h
        simpa [adel] using ih
      · simp [adel, alookup, h, ih]
    · by_cases h : k = k₂
      · subst h
        have hne : ¬ k = k₁ := h2
        simp [adel, alookup, h2, hne]
      · simp [adel, alookup, h2, h, ih]

theorem checkRecord_false_iff (v : JValue) :
    checkRecord v = false ↔ missingField v ∨ badOptions v ∨ badAnswer v := by
  cases v with
  | obj fields =>
    simp only [checkRecord, missingField, badOptions, badAnswer]
    cases hq : jlookup "q" fields with
    | none => simp [hq]
    | some q =>
      cases ho : jlookup "opts" fields with
      | none => simp [hq, ho]
      | some o =>
        cases ha : jlookup "answer" fields with
        | none => simp [hq, ho, ha]
        | some a =>
          cases o with
          | arr opts =>
            cases hn : asInt a with
            | none => simp [hq, ho, ha, hn]
            | some n =>
              simp [hq, ho, ha, hn]
              omega
          | null => simp [hq, ho, ha]
          | bool b => simp [hq, ho, ha]
          | int m => simp [hq, ho, ha]
          | str s => simp [hq, ho, ha]
          | obj f => simp [hq, ho, ha]
  | null => simp [checkRecord, missingField]
  | bool b => simp [checkRecord, missingField]
  | int n => simp [checkRecord, missingField]
  | str s => simp [checkRecord, missingField]
  | arr l => simp [checkRecord, missingField]

theorem insertRow_perm {α : Type} (le : α → α → Bool) (a : α) (l : List α) :
    (insertRow le a l).Perm (a :: l) := by
  induction l with
  | nil => simp [insertRow]
  | cons b l ih =>
    by_cases h : le a b
    · simp [insertRow, h]
    · simp only [insertRow, h, if_false]
      exact (ih.cons b).trans (List.Perm.swap a b l)

theorem sortRows_perm (rows : List (String × Int)) :
    (sortRows rows).Perm rows := by
  induction rows with
  | nil => simp [sortRows]
  | cons r rest ih =>
    exact (insertRow_perm rowLe r (sortRows rest)).trans (ih.cons r)

theorem insertRow_pairwise {α : Type} (le : α → α → Bool)
    (htot : ∀ a b, le a b || le b a)
    (htrans : ∀ a b c, le a b = true → le b c = true → le a c = true)
    (a : α) (l : List α) (h : l.Pairwise (fun x y => le x y = true)) :
    (insertRow le a l).Pairwise (fun x y => le x y = true) := by
  induction l with
  | nil => simp [insertRow]
  | cons b l ih =>
    rcases List.pairwise_cons.mp h with ⟨hb, hl⟩
    by_cases hab : le a b
    · rw [insertRow, if_pos hab]
      refine List.pairwise_cons.mpr ⟨?_, h⟩
      intro x hx
      rcases List.mem_cons.mp hx with hx | hx
      · subst hx
        exact hab
      · exact htrans a b x hab (hb x hx)
    · rw [insertRow, if_neg hab]
      refine List.pairwise_cons.mpr ⟨?_, ih hl⟩
      intro x hx
      have hx1 := (insertRow_perm le a l).mem_iff.mp hx
      rcases List.mem_cons.mp hx1 with rfl | hx1
      · have := htot x b
        simp [hab] at this
        exact this
      · exact hb x hx1

theorem sortRows_pairwise
    (htot : ∀ a b, rowLe a b || rowLe b a)
    (htrans : ∀ a b c, rowLe a b = true → rowLe b c = true → rowLe a c = true)
    (rows : List (String × Int)) :
    (sortRows rows).Pairwise (fun x y => rowLe x y = true) := by
  induction rows with
  | nil => simp [sortRows]
  | cons r rest ih => exact insertRow_pairwise rowLe htot htrans r (sortRows rest) ih

theorem charsLe_total (as : List Char) : ∀ bs, (charsLe as bs || charsLe bs as) = true := by
  induction as with
  | nil =>
    intro bs
    simp [charsLe]
  | cons a as ih =>
    intro bs
    cases bs with
    | nil => simp [charsLe]
    | cons b bs =>
      by_cases h1 : a.toNat < b.toNat
      · simp [charsLe, h1]
      · by_cases h2 : b.toNat < a.toNat
        · simp [charsLe, h2]
        · have he : a.toNat = b.toNat := by omega
          have e1 : charsLe (a :: as) (b :: bs) = charsLe as bs := by
            simp [charsLe, he]
          have e2 : charsLe (b :: bs) (a :: as) = charsLe bs as := by
            simp [charsLe, he.symm]
          rw [e1, e2]
          exact ih bs

theorem charsLe_trans (as : List Char) :
    ∀ bs cs, charsLe as bs = true → charsLe bs cs = true → charsLe as cs = true := by
  induction as with
  | nil =>
    intro bs cs _ _
    simp [charsLe]
  | cons a as ih =>
    intro bs cs h1 h2
    cases bs with
    | nil => simp [charsLe] at h1
    | cons b bs =>
      cases cs with
      | nil => simp [charsLe] at h2
      | cons c cs =>
        simp only [charsLe, Bool.or_eq_true, Bool.and_eq_true, decide_eq_true_eq] at h1 h2 ⊢
        rcases h1 with h1 | ⟨h1e, h1r⟩
        · rcases h2 with h2 | ⟨h2e, h2r⟩
          · left
            omega
          · left
            omega
        · rcases h2 with h2 | ⟨h2e, h2r⟩
          · left
            omega
          · right
            exact ⟨by omega, ih bs cs h1r h2r⟩

theorem nameLe_total (a b : String) : (nameLe a b || nameLe b a) = true :=
  charsLe_total (a.data.map lowerChar) (b.data.map lowerChar)

theorem nameLe_trans (a b c : String) (h1 : nameLe a b = true) (h2 : nameLe b c = true) :
    nameLe a c = true :=
  charsLe_trans (a.data.map lowerChar) (b.data.map lowerChar) (c.data.map lowerChar) h1 h2

theorem rowLe_total (a b : String × Int) : (rowLe a b || rowLe b a) = true := by
  simp only [rowLe, Bool.or_eq_true, Bool.and_eq_true, decide_eq_true_eq, beq_iff_eq]
  by_cases h1 : a.2 < b.2
  · tauto
  · by_cases h2 : b.2 < a.2
    · tauto
    · have he : a.2 = b.2 := by omega
      rcases Bool.or_eq_true _ _ |>.mp (nameLe_total a.1 b.1) with h4 | h4
      · exact Or.inl (Or.inr ⟨he, h4⟩)
      · exact Or.inr (Or.inr ⟨he.symm, h4⟩)

theorem rowLe_trans (a b c : String × Int)
    (h1 : rowLe a b = true) (h2 : rowLe b c = true) : rowLe a c = true := by
  simp only [rowLe, Bool.or_eq_true, Bool.and_eq_true, decide_eq_true_eq, beq_iff_eq] at h1 h2 ⊢
  rcases h1 with h1 | ⟨h1e, h1n⟩
  · rcases h2 with h2 | ⟨h2e, h2n⟩
    · left
      omega
    · left
      omega
  · rcases h2 with h2 | ⟨h2e, h2n⟩
    · left
      omega
    · exact Or.inr ⟨by omega, nameLe_trans a.1 b.1 c.1 h1n h2n⟩

theorem checkRecord_true_spec (v : JValue) (h : checkRecord v = true) :
    ∃ fields opts n, v = JValue.obj fields ∧
      jlookup "opts" fields = some (JValue.arr opts) ∧
      (jlookup "answer" fields).bind asInt = some n ∧
      0 ≤ n ∧ n < (opts.length : Int) := by
  cases v with
  | obj fields =>
    refine ⟨fields, ?_⟩
    simp only [checkRecord] at h
    cases hq : jlookup "q" fields with
    | none => simp [hq] at h
    | some q =>
      cases ho : jlookup "opts" fields with
      | none => simp [hq, ho] at h
      | some o =>
        cases ha : jlookup "answer" fields with
        | none => simp [hq, ho, ha] at h
        | some a =>
          cases o with
          | arr opts =>
            cases hn : asInt a with
            | none => simp [hq, ho, ha, hn] at h
            | some n =>
              simp only [hq, ho, ha, hn, Bool.and_eq_true, decide_eq_true_eq] at h
              exact ⟨opts, n, rfl, rfl, by simp [ha, hn], h.2.1, h.2.2⟩
          | null => simp [hq, ho, ha] at h
          | bool b => simp [hq, ho, ha] at h
          | int m => simp [hq, ho, ha] at h
          | str st => simp [hq, ho, ha] at h
          | obj f => simp [hq, ho, ha] at h
  | null => simp [checkRecord] at h
  | bool b => simp [checkRecord] at h
  | int n => simp [checkRecord] at h
  | str st => simp [checkRecord] at h
  | arr l => simp [checkRecord] at h

/-- C8: loading rejects the whole bank exactly when the source is not a
non-empty list, some record lacks a required field, some options list has
fewer than 2 entries, or some correct-answer index is not an integer in
range; and every question of a successful load has its answer index in
range of its option list. -/
theorem claim_C8_load_validation (data : JValue) :
    (load_questions data = none ↔
      (¬ ∃ qs, data = JValue.arr qs ∧ qs ≠ []) ∨
      (∃ qs, data = JValue.arr qs ∧
        ∃ q ∈ qs, missingField q ∨ badOptions q ∨ badAnswer q)) ∧
    (∀ qs, load_questions data = some qs →
      ∀ q ∈ qs, ∃ fields opts n, q = JValue.obj fields ∧
        jlookup "opts" fields = some (JValue.arr opts) ∧
        (jlookup "answer" fields).bind asInt = some n ∧
        0 ≤ n ∧ n < (opts.length : Int)) := by
  constructor
  · cases data with
    | arr qs =>
      by_cases he : qs.isEmpty
      · simp only [load_questions, he, if_true]
        constructor
        · intro _
          left
          rintro ⟨qs₁, heq, hne⟩
          cases heq
          simp_all [List.isEmpty_iff]
        · intro _
          trivial
      · simp only [load_questions, he, if_false]
        by_cases ha : qs.all checkRecord
        · simp only [ha, if_true]
          constructor
          · intro h
            exact absurd h (by simp)
          · rintro (h | ⟨qs₁, heq, q, hq, hbad⟩)
            · exact absurd ⟨qs, rfl, by simpa [List.isEmpty_iff] using he⟩ h
            · cases heq
              have := List.all_eq_true.mp ha q hq
              rw [← checkRecord_false_iff] at hbad
              simp [this] at hbad
        · simp only [ha, if_false]
          constructor
          · intro _
            right
            refine ⟨qs, rfl, ?_⟩
            have : ¬ ∀ q ∈ qs, checkRecord q = true := fun hall =>
              ha (List.all_eq_true.mpr hall)
            push_neg at this
            obtain ⟨q, hq, hfalse⟩ := this
            exact ⟨q, hq, (checkRecord_false_iff q).mp (by simpa using hfalse)⟩
          · intro _
            rfl
    | null => simp [load_questions]
    | bool b => simp [load_questions]
    | int n => simp [load_questions]
    | str st => simp [load_questions]
    | obj f => simp [load_questions]
  · intro qs hload q hq
    cases data with
    | arr qs₁ =>
      simp only [load_questions] at hload
      by_cases he : qs₁.isEmpty
      · simp [he] at hload
      · by_cases ha : qs₁.all checkRecord
        · simp only [he, ha, if_false, if_true, Option.some.injEq] at hload
          cases hload
          exact checkRecord_true_spec q (List.all_eq_true.mp ha q hq)
        · simp [he, ha] at hload
    | null => simp [load_questions] at hload
    | bool b => simp [load_questions] at hload
    | int n => simp [load_questions] at hload
    | str st => simp [load_questions] at hload
    | obj f => simp [load_questions] at hload

/-- Witness for C8 at a concrete bank of one well-formed record. -/
theorem claim_C8_load_validation_witness :
    ∃ fields opts n,
      JValue.obj [("q", JValue.str "one"), ("opts", JValue.arr [JValue.str "a", JValue.str "b"]), ("answer", JValue.int 0)] = JValue.obj fields ∧
      jlookup "opts" fields = some (JValue.arr opts) ∧
      (jlookup "answer" fields).bind asInt = some n ∧
      0 ≤ n ∧ n < (opts.length : Int) :=
  (claim_C8_load_validation (JValue.arr [JValue.obj [("q", JValue.str "one"), ("opts", JValue.arr [JValue.str "a", JValue.str "b"]), ("answer", JValue.int 0)]])).2
    [JValue.obj [("q", JValue.str "one"), ("opts", JValue.arr [JValue.str "a", JValue.str "b"]), ("answer", JValue.int 0)]]
    rfl
    (JValue.obj [("q", JValue.str "one"), ("opts", JValue.arr [JValue.str "a", JValue.str "b"]), ("answer", JValue.int 0)])
    (List.mem_singleton.mpr rfl)

/-- What it means to be the top-10 of the rows: the output keeps exactly
min(10, n) rows, is sorted, and splits the input (up to permutation) into
the kept rows and dropped rows, every kept row ranking at least as high as
every dropped one. -/
theorem topTen_spec (rows : List (String × Int)) :
    ((sortRows rows).take 10).length = min 10 rows.length ∧
    ((sortRows rows).take 10).Pairwise (fun x y => rowLe x y = true) ∧
    ∃ rest, (((sortRows rows).take 10) ++ rest).Perm rows ∧
      ∀ a ∈ (sortRows rows).take 10, ∀ b ∈ rest, rowLe a b = true := by
  refine ⟨?_, ?_, ⟨(sortRows rows).drop 10, ?_, ?_⟩⟩
  · rw [List.length_take, (sortRows_perm rows).length_eq]
  · exact List.Pairwise.sublist (List.take_sublist 10 (sortRows rows))
      (sortRows_pairwise rowLe_total rowLe_trans rows)
  · rw [List.take_append_drop]
    exact sortRows_perm rows
  · have hp := sortRows_pairwise rowLe_total rowLe_trans rows
    rw [← List.take_append_drop 10 (sortRows rows)] at hp
    intro a ha b hb
    exact (List.pairwise_append.mp hp).2.2 a ha b hb

/-- C5: both the cumulative leaderboard and the session scoreboard return
the top 10 of their stored entries: exactly min(10, n) rows, sorted by
descending score with ties by ascending case-insensitive name, and every
returned row ranks at least as high as every entry left out; on the
entries A:3, B:5, C:3 the order is B, A, C. -/
theorem claim_C5_scoreboard_order :
    (∀ (scores : List (Int × List (Nat × ScoreEntry))) (chatId : Int),
      (get_group_leaderboard scores chatId 10).length =
        min 10 (((alookup chatId scores).getD []).map
          (fun kv => (kv.2.name, kv.2.score))).length ∧
      (get_group_leaderboard scores chatId 10).Pairwise (fun x y => rowLe x y = true) ∧
      ∃ rest, ((get_group_leaderboard scores chatId 10) ++ rest).Perm
          (((alookup chatId scores).getD []).map (fun kv => (kv.2.name, kv.2.score))) ∧
        ∀ a ∈ get_group_leaderboard scores chatId 10, ∀ b ∈ rest,
          rowLe a b = true) ∧
    (∀ entries : List (Nat × ScoreEntry),
      (scoreboardRows entries 10).length =
        min 10 (entries.map (fun kv => (kv.2.name, kv.2.score))).length ∧
      (scoreboardRows entries 10).Pairwise (fun x y => rowLe x y = true) ∧
      ∃ rest, ((scoreboardRows entries 10) ++ rest).Perm
          (entries.map (fun kv => (kv.2.name, kv.2.score))) ∧
        ∀ a ∈ scoreboardRows entries 10, ∀ b ∈ rest, rowLe a b = true) ∧
    get_group_leaderboard [(0, [(1, ⟨"A", 3⟩), (2, ⟨"B", 5⟩), (3, ⟨"C", 3⟩)])] 0 10 =
      [("B", 5), ("A", 3), ("C", 3)] ∧
    scoreboardRows [(1, ⟨"A", 3⟩), (2, ⟨"B", 5⟩), (3, ⟨"C", 3⟩)] 10 =
      [("B", 5), ("A", 3), ("C", 3)] := by
  refine ⟨fun scores chatId => ?_, fun entries => ?_, by decide, by decide⟩
  · have he : get_group_leaderboard scores chatId 10 =
        (sortRows (((alookup chatId scores).getD []).map
          (fun kv => (kv.2.name, kv.2.score)))).take 10 := rfl
    rw [he]
    exact topTen_spec _
  · have he : scoreboardRows entries 10 =
        (sortRows (entries.map (fun kv => (kv.2.name, kv.2.score)))).take 10 := rfl
    rw [he]
    exact topTen_spec _

/-! ## Frame lemmas: which fields each handler can touch -/

theorem snp_groupSessions (QUIZ : List Question) (perm : List Nat)
    (s : BotState) (uid : Nat) :
    (send_next_private QUIZ perm s uid).groupSessions = s.groupSessions := by
  unfold send_next_private
  cases alookup uid s.userState <;> simp only
  split <;> rfl

theorem snp_pollToGroup (QUIZ : List Question) (perm : List Nat)
    (s : BotState) (uid : Nat) :
    (send_next_private QUIZ perm s uid).pollToGroup = s.pollToGroup := by
  unfold send_next_private
  cases alookup uid s.userState <;> simp only
  split <;> rfl

theorem snp_cumulative (QUIZ : List Question) (perm : List Nat)
    (s : BotState) (uid : Nat) :
    (send_next_private QUIZ perm s uid).cumulative = s.cumulative := by
  unfold send_next_private
  cases alookup uid s.userState <;> simp only
  split <;> rfl

theorem sng_cumulative (QUIZ : List Question) (perm : List Nat) (sendOk : Bool)
    (s : BotState) (chatId : Int) :
    (_send_next_group_question QUIZ perm sendOk s chatId).cumulative = s.cumulative := by
  unfold _send_next_group_question
  cases alookup chatId s.groupSessions <;> simp only
  split
  · rfl
  · split <;> rfl

theorem sng_userState (QUIZ : List Question) (perm : List Nat) (sendOk : Bool)
    (s : BotState) (chatId : Int) :
    (_send_next_group_question QUIZ perm sendOk s chatId).userState = s.userState := by
  unfold _send_next_group_question
  cases alookup chatId s.groupSessions <;> simp only
  split
  · rfl
  · split <;> rfl

theorem sng_pollToPrivate (QUIZ : List Question) (perm : List Nat) (sendOk : Bool)
    (s : BotState) (chatId : Int) :
    (_send_next_group_question QUIZ perm sendOk s chatId).pollToPrivate = s.pollToPrivate := by
  unfold _send_next_group_question
  cases alookup chatId s.groupSessions <;> simp only
  split
  · rfl
  · split <;> rfl

/-- When the session still has a question to post, posting (whether the
transport succeeds or not) leaves the session registry untouched. -/
theorem sng_post_groupSessions (QUIZ : List Question) (perm : List Nat)
    (sendOk : Bool) (s : BotState) (chatId : Int) (sess : GroupSession)
    (h : alookup chatId s.groupSessions = some sess)
    (hlt : sess.idx < sess.qids.length) :
    (_send_next_group_question QUIZ perm sendOk s chatId).groupSessions = s.groupSessions := by
  unfold _send_next_group_question
  rw [h]
  simp only
  rw [if_neg (Nat.not_le.mpr hlt)]
  cases sendOk <;> rfl

/-- When the session still has a question to post, posting never sends a
plain message. -/
theorem sng_post_replies (QUIZ : List Question) (perm : List Nat)
    (sendOk : Bool) (s : BotState) (chatId : Int) (sess : GroupSession)
    (h : alookup chatId s.groupSessions = some sess)
    (hlt : sess.idx < sess.qids.length) :
    (_send_next_group_question QUIZ perm sendOk s chatId).replies = s.replies := by
  unfold _send_next_group_question
  rw [h]
  simp only
  rw [if_neg (Nat.not_le.mpr hlt)]
  cases sendOk <;> rfl

/-! ## C6: option-shuffle correctness -/

theorem shuffle_correct_core (opts : List String) (answer : Nat) (idxs : List Nat)
    (hp : idxs.Perm (List.range opts.length)) (ha : answer < opts.length) :
    (shuffledOpts idxs opts).getD (presentedCorrect idxs answer) "" =
      opts.getD answer "" := by
  have hmem : answer ∈ idxs := hp.mem_iff.mpr (List.mem_range.mpr ha)
  have hlt : idxs.indexOf answer < idxs.length := List.indexOf_lt_length.mpr hmem
  have hlt2 : idxs.indexOf answer < (shuffledOpts idxs opts).length := by
    simpa [shuffledOpts] using hlt
  rw [presentedCorrect, List.getD_eq_getElem _ _ hlt2]
  simp only [shuffledOpts, List.getElem_map, List.getElem_indexOf hlt]

/-- C6: the presented correct-option index handed to the transport points,
inside the shuffled option list, at the originally correct option: for any
shuffle permutation of the option positions, reading the shuffled options
at the presented index gives the option at the question's own correct
index, and the poll a group posting emits carries exactly that pair. -/
theorem claim_C6_shuffle_correct (QUIZ : List Question) (perm : List Nat)
    (s : BotState) (chatId : Int) (sess : GroupSession)
    (h : alookup chatId s.groupSessions = some sess)
    (hlt : sess.idx < sess.qids.length)
    (hp : perm.Perm (List.range (QUIZ.getD (sess.qids.getD sess.idx 0) default).opts.length))
    (ha : (QUIZ.getD (sess.qids.getD sess.idx 0) default).answer <
      (QUIZ.getD (sess.qids.getD sess.idx 0) default).opts.length) :
    (∀ (opts : List String) (answer : Nat) (idxs : List Nat),
      idxs.Perm (List.range opts.length) → answer < opts.length →
      (shuffledOpts idxs opts).getD (presentedCorrect idxs answer) "" =
        opts.getD answer "") ∧
    ∃ post : PollPost,
      (_send_next_group_question QUIZ perm true s chatId).polls = s.polls ++ [post] ∧
      post.options = shuffledOpts perm (QUIZ.getD (sess.qids.getD sess.idx 0) default).opts ∧
      post.correctOptionId =
        presentedCorrect perm (QUIZ.getD (sess.qids.getD sess.idx 0) default).answer ∧
      post.options.getD post.correctOptionId "" =
        (QUIZ.getD (sess.qids.getD sess.idx 0) default).opts.getD
          (QUIZ.getD (sess.qids.getD sess.idx 0) default).answer "" := by
  refine ⟨fun opts answer idxs hp1 ha1 => shuffle_correct_core opts answer idxs hp1 ha1, ?_⟩
  refine ⟨⟨chatId,
    "Q" ++ toString (sess.idx + 1) ++ "/" ++ toString sess.qids.length ++ ": " ++
      (QUIZ.getD (sess.qids.getD sess.idx 0) default).text,
    shuffledOpts perm (QUIZ.getD (sess.qids.getD sess.idx 0) default).opts,
    presentedCorrect perm (QUIZ.getD (sess.qids.getD sess.idx 0) default).answer,
    s.nextPollId⟩, ?_, rfl, rfl, shuffle_correct_core _ _ _ hp ha⟩
  unfold _send_next_group_question
  rw [h]
  simp only
  rw [if_neg (Nat.not_le.mpr hlt)]
  rfl

/-- Witness for C6: a three-option question with correct index 1 shuffled
by the permutation 2,0,1. -/
theorem claim_C6_shuffle_correct_witness :
    ∃ post : PollPost,
      (_send_next_group_question [⟨"q", ["A", "B", "C"], 1⟩] [2, 0, 1] true
        ⟨[], [], [], [(0, ⟨1, [0], 0, []⟩)], [], 0, 2, [], []⟩ 0).polls =
        ([] : List PollPost) ++ [post] ∧
      post.options = shuffledOpts [2, 0, 1] ["A", "B", "C"] ∧
      post.correctOptionId = presentedCorrect [2, 0, 1] 1 ∧
      post.options.getD post.correctOptionId "" = ["A", "B", "C"].getD 1 "" :=
  (claim_C6_shuffle_correct [⟨"q", ["A", "B", "C"], 1⟩] [2, 0, 1]
    ⟨[], [], [], [(0, ⟨1, [0], 0, []⟩)], [], 0, 2, [], []⟩ 0 ⟨1, [0], 0, []⟩
    (by decide) (by decide) (by decide) (by decide)).2

/-! ## C7: session sampling -/

/-- C7: starting a group session over a non-empty bank registers a session
whose question-id list has exactly min(GROUP_QUIZ_LEN, bank size) entries,
pairwise distinct and all valid bank positions.  shuffled is the random
permutation of the bank positions whose prefix random.sample returns. -/
theorem claim_C7_sample_distinct (QUIZ : List Question) (chatId : Int)
    (u : User) (shuffled perm : List Nat) (sendOk : Bool) (s : BotState)
    (hQ : QUIZ ≠ [])
    (hnone : alookup chatId s.groupSessions = none)
    (hperm : shuffled.Perm (List.range QUIZ.length)) :
    ∃ sess : GroupSession,
      alookup chatId
        (step QUIZ s (.quizCmd chatId false u shuffled perm sendOk)).groupSessions =
        some sess ∧
      sess.qids.length = min GROUP_QUIZ_LEN QUIZ.length ∧
      sess.qids.Nodup ∧
      ∀ i ∈ sess.qids, i < QUIZ.length := by
  have hlen : shuffled.length = QUIZ.length := by
    simpa using hperm.length_eq
  have hpos : 0 < QUIZ.length := List.length_pos.mpr hQ
  have hqcount : min GROUP_QUIZ_LEN QUIZ.length ≤ QUIZ.length := Nat.min_le_right _ _
  have hqpos : 0 < min GROUP_QUIZ_LEN QUIZ.length := by
    rw [GROUP_QUIZ_LEN]
    omega
  have hne : QUIZ.isEmpty = false := by
    simpa [List.isEmpty_iff] using hQ
  set sess : GroupSession :=
    ⟨s.nextSessionId, shuffled.take (min GROUP_QUIZ_LEN QUIZ.length), 0, []⟩ with hsess
  have hqlen : sess.qids.length = min GROUP_QUIZ_LEN QUIZ.length := by
    rw [hsess]
    simp only [List.length_take, hlen]
    omega
  refine ⟨sess, ?_, hqlen, ?_, ?_⟩
  · show alookup chatId
      (quiz_cmd QUIZ chatId false u shuffled perm sendOk s).groupSessions = some sess
    unfold quiz_cmd
    rw [hne]
    simp only [Bool.false_eq_true, if_false, Bool.not_false, if_true, hnone]
    rw [sng_post_groupSessions QUIZ perm sendOk _ chatId sess ?_ ?_]
    · exact (by simp [alookup_aset])
    · simp [alookup_aset]
    · rw [hqlen]
      exact hqpos
  · rw [hsess]
    exact (List.take_sublist _ _).nodup (hperm.nodup_iff.mpr (List.nodup_range _))
  · intro i hi
    rw [hsess] at hi
    have hi2 : i ∈ shuffled := List.take_subset _ _ hi
    exact List.mem_range.mp (hperm.mem_iff.mp hi2)

/-- Witness for C7: a two-question bank and an empty registry. -/
theorem claim_C7_sample_distinct_witness :
    ∃ sess : GroupSession,
      alookup 0 (step [⟨"one", ["a", "b"], 0⟩, ⟨"two", ["c", "d"], 1⟩]
        ⟨[], [], [], [], [], 0, 0, [], []⟩
        (.quizCmd 0 false ⟨7, "u", "", ""⟩ [1, 0] [0, 1] true)).groupSessions =
        some sess ∧
      sess.qids.length = min GROUP_QUIZ_LEN 2 ∧
      sess.qids.Nodup ∧
      ∀ i ∈ sess.qids, i < 2 :=
  claim_C7_sample_distinct [⟨"one", ["a", "b"], 0⟩, ⟨"two", ["c", "d"], 1⟩] 0
    ⟨7, "u", "", ""⟩ [1, 0] [0, 1] true ⟨[], [], [], [], [], 0, 0, [], []⟩
    (by decide) (by decide) (by decide)

/-! ## C4: one session per group -/

/-- A group start request against a chat that already has a session only
sends the rejection reply. -/
theorem quiz_cmd_reject (QUIZ : List Question) (chatId : Int) (u : User)
    (sh pm : List Nat) (ok : Bool) (s : BotState) (sess : GroupSession)
    (hQ : QUIZ ≠ []) (h : alookup chatId s.groupSessions = some sess) :
    quiz_cmd QUIZ chatId false u sh pm ok s =
      { s with replies := s.replies ++ [(chatId, alreadyActiveMsg)] } := by
  have hne : QUIZ.isEmpty = false := by
    simpa [List.isEmpty_iff] using hQ
  unfold quiz_cmd
  rw [hne]
  simp only [Bool.false_eq_true, if_false, Bool.not_false, if_true, h]

/-- A group start request against a chat without a session registers a
fresh session with cursor 0 over the sampled prefix. -/
theorem quiz_cmd_creates (QUIZ : List Question) (chatId : Int) (u : User)
    (sh pm : List Nat) (ok : Bool) (s : BotState)
    (hQ : QUIZ ≠ []) (hnone : alookup chatId s.groupSessions = none)
    (hperm : sh.Perm (List.range QUIZ.length)) :
    alookup chatId (quiz_cmd QUIZ chatId false u sh pm ok s).groupSessions =
      some ⟨s.nextSessionId, sh.take (min GROUP_QUIZ_LEN QUIZ.length), 0, []⟩ := by
  have hlen : sh.length = QUIZ.length := by
    simpa using hperm.length_eq
  have hpos : 0 < QUIZ.length := List.length_pos.mpr hQ
  have hqpos : 0 < min GROUP_QUIZ_LEN QUIZ.length := by
    rw [GROUP_QUIZ_LEN]
    omega
  have hne : QUIZ.isEmpty = false := by
    simpa [List.isEmpty_iff] using hQ
  unfold quiz_cmd
  rw [hne]
  simp only [Bool.false_eq_true, if_false, Bool.not_false, if_true, hnone]
  rw [sng_post_groupSessions QUIZ pm ok _ chatId
    ⟨s.nextSessionId, sh.take (min GROUP_QUIZ_LEN QUIZ.length), 0, []⟩ ?_ ?_]
  · simp [alookup_aset]
  · simp [alookup_aset]
  · simp only [List.length_take, hlen]
    omega

/-- C4: a start request for a group with a running session is rejected with
the AlreadyActive reply and changes nothing else, and of two consecutive
start requests against a session-free group exactly the first one creates a
session while the second is rejected the same way. -/
theorem claim_C4_exclusive_start (QUIZ : List Question) (s : BotState)
    (chatId : Int) (hQ : QUIZ ≠ []) :
    (∀ (sess : GroupSession) (u : User) (sh pm : List Nat) (ok : Bool),
      alookup chatId s.groupSessions = some sess →
      step QUIZ s (.quizCmd chatId false u sh pm ok) =
        { s with replies := s.replies ++ [(chatId, alreadyActiveMsg)] }) ∧
    (∀ (u1 u2 : User) (sh1 sh2 pm1 pm2 : List Nat) (ok1 ok2 : Bool),
      alookup chatId s.groupSessions = none →
      sh1.Perm (List.range QUIZ.length) →
      (∃ sess, alookup chatId
          (step QUIZ s (.quizCmd chatId false u1 sh1 pm1 ok1)).groupSessions =
          some sess) ∧
      step QUIZ (step QUIZ s (.quizCmd chatId false u1 sh1 pm1 ok1))
          (.quizCmd chatId false u2 sh2 pm2 ok2) =
        { step QUIZ s (.quizCmd chatId false u1 sh1 pm1 ok1) with
          replies := (step QUIZ s (.quizCmd chatId false u1 sh1 pm1 ok1)).replies ++
            [(chatId, alreadyActiveMsg)] }) := by
  constructor
  · intro sess u sh pm ok h
    exact quiz_cmd_reject QUIZ chatId u sh pm ok s sess hQ h
  · intro u1 u2 sh1 sh2 pm1 pm2 ok1 ok2 hnone hperm
    have hcreate := quiz_cmd_creates QUIZ chatId u1 sh1 pm1 ok1 s hQ hnone hperm
    exact ⟨⟨_, hcreate⟩,
      quiz_cmd_reject QUIZ chatId u2 sh2 pm2 ok2 _ _ hQ hcreate⟩

/-- Witness for C4: a one-question bank, an empty registry, two start
requests for chat 0. -/
theorem claim_C4_exclusive_start_witness :
    (∃ sess, alookup 0 (step [⟨"one", ["a", "b"], 0⟩]
        ⟨[], [], [], [], [], 0, 0, [], []⟩
        (.quizCmd 0 false ⟨7, "u", "", ""⟩ [0] [0, 1] true)).groupSessions =
        some sess) ∧
    step [⟨"one", ["a", "b"], 0⟩]
        (step [⟨"one", ["a", "b"], 0⟩] ⟨[], [], [], [], [], 0, 0, [], []⟩
          (.quizCmd 0 false ⟨7, "u", "", ""⟩ [0] [0, 1] true))
        (.quizCmd 0 false ⟨8, "v", "", ""⟩ [0] [0, 1] true) =
      { step [⟨"one", ["a", "b"], 0⟩] ⟨[], [], [], [], [], 0, 0, [], []⟩
          (.quizCmd 0 false ⟨7, "u", "", ""⟩ [0] [0, 1] true) with
        replies := (step [⟨"one", ["a", "b"], 0⟩] ⟨[], [], [], [], [], 0, 0, [], []⟩
          (.quizCmd 0 false ⟨7, "u", "", ""⟩ [0] [0, 1] true)).replies ++
          [(0, alreadyActiveMsg)] } :=
  (claim_C4_exclusive_start [⟨"one", ["a", "b"], 0⟩]
    ⟨[], [], [], [], [], 0, 0, [], []⟩ 0 (by decide)).2
    ⟨7, "u", "", ""⟩ ⟨8, "v", "", ""⟩ [0] [0] [0, 1] [0, 1] true true
    (by decide) (by decide)

/-! ## C1: staleness handling of answers and timers

The source guards both the answer handler and the timer job only by the
session id bound into POLL_TO_GROUP and into the job data.  A timer or an
answer of a dead or replaced session is therefore a strict no-op.  But
POLL_TO_GROUP entries are never removed while the session lives, so an
answer to the poll of an earlier question of the same still-running
session still passes the guard and still scores. -/

/-- Counterexample to C1 as stated: chat 0 runs session 5 and has already
advanced to question 1 (cursor 1), while poll 100 is the poll of the
superseded question 0 of that same session.  A correct answer to poll 100
does mutate the session scores. -/
theorem claim_C1_counterexample :
    (alookup 0 (step [⟨"one", ["a", "b"], 0⟩, ⟨"two", ["c", "d"], 1⟩]
        ⟨[], [], [(100, ⟨0, 0, 5⟩)], [(0, ⟨5, [0, 1], 1, []⟩)], [], 101, 6, [], []⟩
        (.pollAnswer 100 ⟨7, "u", "", ""⟩ [0] [])).groupSessions).map
      GroupSession.scores ≠
    (alookup 0 ((⟨[], [], [(100, ⟨0, 0, 5⟩)], [(0, ⟨5, [0, 1], 1, []⟩)], [], 101,
        6, [], []⟩ : BotState)).groupSessions).map GroupSession.scores := by
  decide

/-- C1 amended: an event bound to a session identifier that no longer
matches the group's current session — a timer firing, or an answer whose
poll belongs to an ended or replaced session — leaves the whole state
unchanged and surfaces nothing; within one still-running session, however,
a late answer to a superseded question's poll is still counted (see the
counterexample). -/
theorem claim_C1_stale_session_noop (QUIZ : List Question) (s : BotState) :
    (∀ (chatId : Int) (sessionId : Nat) (pm : List Nat) (ok : Bool),
      (alookup chatId s.groupSessions = none ∨
        ∃ ss, alookup chatId s.groupSessions = some ss ∧ ss.sessionId ≠ sessionId) →
      step QUIZ s (.timerFire chatId sessionId pm ok) = s) ∧
    (∀ (pollId : Nat) (u : User) (optionIds : List Nat) (pm : List Nat)
        (meta : GroupPollMeta),
      alookup pollId s.pollToGroup = some meta →
      (alookup meta.chatId s.groupSessions = none ∨
        ∃ ss, alookup meta.chatId s.groupSessions = some ss ∧
          ss.sessionId ≠ meta.sessionId) →
      step QUIZ s (.pollAnswer pollId u optionIds pm) = s) := by
  constructor
  · intro chatId sessionId pm ok hstale
    show _group_next_question_job QUIZ pm ok s chatId sessionId = s
    unfold _group_next_question_job
    rcases hstale with hnone | ⟨ss, hss, hne⟩
    · rw [hnone]
    · rw [hss]
      simp only [hne, if_false]
  · intro pollId u optionIds pm meta hmeta hstale
    show on_poll_answer QUIZ pm s pollId u optionIds = s
    unfold on_poll_answer
    rw [hmeta]
    rcases hstale with hnone | ⟨ss, hss, hne⟩
    · simp only [hnone]
    · simp only [hss]
      rw [if_neg]
      rintro ⟨h1, _⟩
      exact hne h1

/-- Witness for C1 amended: a timer of the gone session 4 and an answer to
a poll of session 4 while chat 0 runs session 5 both leave the concrete
state untouched. -/
theorem claim_C1_stale_session_noop_witness :
    step [⟨"one", ["a", "b"], 0⟩]
        ⟨[], [], [(90, ⟨0, 0, 4⟩)], [(0, ⟨5, [0], 0, []⟩)], [], 101, 6, [], []⟩
        (.timerFire 0 4 [0, 1] true) =
      ⟨[], [], [(90, ⟨0, 0, 4⟩)], [(0, ⟨5, [0], 0, []⟩)], [], 101, 6, [], []⟩ ∧
    step [⟨"one", ["a", "b"], 0⟩]
        ⟨[], [], [(90, ⟨0, 0, 4⟩)], [(0, ⟨5, [0], 0, []⟩)], [], 101, 6, [], []⟩
        (.pollAnswer 90 ⟨7, "u", "", ""⟩ [0] []) =
      ⟨[], [], [(90, ⟨0, 0, 4⟩)], [(0, ⟨5, [0], 0, []⟩)], [], 101, 6, [], []⟩ :=
  ⟨(claim_C1_stale_session_noop [⟨"one", ["a", "b"], 0⟩]
      ⟨[], [], [(90, ⟨0, 0, 4⟩)], [(0, ⟨5, [0], 0, []⟩)], [], 101, 6, [], []⟩).1
      0 4 [0, 1] true (Or.inr ⟨⟨5, [0], 0, []⟩, by decide, by decide⟩),
   (claim_C1_stale_session_noop [⟨"one", ["a", "b"], 0⟩]
      ⟨[], [], [(90, ⟨0, 0, 4⟩)], [(0, ⟨5, [0], 0, []⟩)], [], 101, 6, [], []⟩).2
      90 ⟨7, "u", "", ""⟩ [0] [] ⟨0, 0, 4⟩ (by decide)
      (Or.inr ⟨⟨5, [0], 0, []⟩, by decide, by decide⟩)⟩

/-! ## C3: transport failure while advancing -/

/-- Counterexample to C3 as stated: chat 0 runs session 5 with cursor 0;
the timer fires and the post of the next question fails, yet the cursor
has moved to 1. -/
theorem claim_C3_counterexample :
    (alookup 0 (step [⟨"one", ["a", "b"], 0⟩, ⟨"two", ["c", "d"], 1⟩]
        ⟨[], [], [], [(0, ⟨5, [0, 1], 0, []⟩)], [], 101, 6, [], []⟩
        (.timerFire 0 5 [0, 1] false)).groupSessions).map GroupSession.idx ≠
    (alookup 0 ((⟨[], [], [], [(0, ⟨5, [0, 1], 0, []⟩)], [], 101, 6, [], []⟩ :
        BotState)).groupSessions).map GroupSession.idx := by
  decide

/-- C3 amended: the job increments the cursor before posting, so when the
post of the next question fails the state is exactly the old one with the
cursor moved one step — the increment is not rolled back, and nothing else
(no poll binding, no poll, no reply) is recorded. -/
theorem claim_C3_failed_post_increments (QUIZ : List Question) (s : BotState)
    (chatId : Int) (sessionId : Nat) (pm : List Nat) (sess : GroupSession)
    (h : alookup chatId s.groupSessions = some sess)
    (hsid : sess.sessionId = sessionId)
    (hlt : sess.idx + 1 < sess.qids.length) :
    step QUIZ s (.timerFire chatId sessionId pm false) =
      { s with groupSessions := aset chatId
                 ⟨sess.sessionId, sess.qids, sess.idx + 1, sess.scores⟩
                 s.groupSessions } := by
  show _group_next_question_job QUIZ pm false s chatId sessionId = _
  unfold _group_next_question_job
  rw [h]
  simp only [hsid, if_true]
  unfold _send_next_group_question
  simp only [alookup_aset, if_true]
  have hc : ¬ (GroupSession.mk sessionId sess.qids (sess.idx + 1) sess.scores).qids.length ≤
      (GroupSession.mk sessionId sess.qids (sess.idx + 1) sess.scores).idx := by
    simp only
    omega
  rw [if_neg hc]
  simp

/-- Witness for C3 amended at a concrete two-question session. -/
theorem claim_C3_failed_post_increments_witness :
    step [⟨"one", ["a", "b"], 0⟩, ⟨"two", ["c", "d"], 1⟩]
        ⟨[], [], [], [(0, ⟨5, [0, 1], 0, []⟩)], [], 101, 6, [], []⟩
        (.timerFire 0 5 [0, 1] false) =
      { (⟨[], [], [], [(0, ⟨5, [0, 1], 0, []⟩)], [], 101, 6, [], []⟩ : BotState) with
        groupSessions := aset 0 ⟨5, [0, 1], 1, []⟩
          [(0, (⟨5, [0, 1], 0, []⟩ : GroupSession))] } :=
  claim_C3_failed_post_increments [⟨"one", ["a", "b"], 0⟩, ⟨"two", ["c", "d"], 1⟩]
    ⟨[], [], [], [(0, ⟨5, [0, 1], 0, []⟩)], [], 101, 6, [], []⟩ 0 5 [0, 1]
    ⟨5, [0, 1], 0, []⟩ (by decide) (by decide) (by decide)

/-! ## More frame lemmas for the remaining invariants -/

/-- Posting in another chat does not move this chat's session. -/
theorem sng_groupSessions_ne (QUIZ : List Question) (perm : List Nat)
    (sendOk : Bool) (s : BotState) (c chat : Int) (hne : c ≠ chat) :
    alookup chat (_send_next_group_question QUIZ perm sendOk s c).groupSessions =
      alookup chat s.groupSessions := by
  have hne2 : ¬ chat = c := fun hh => hne hh.symm
  unfold _send_next_group_question
  cases alookup c s.groupSessions <;> simp only
  split
  · simp [alookup_adel, hne2]
  · split <;> rfl

theorem retest_groupSessions (QUIZ : List Question) (sw pm : List Nat)
    (s : BotState) (uid : Nat) (p : Bool) :
    (retest_cmd QUIZ sw pm s uid p).groupSessions = s.groupSessions := by
  unfold retest_cmd
  split
  · rfl
  · dsimp only
    split
    · rfl
    · rw [snp_groupSessions]

theorem retest_cumulative (QUIZ : List Question) (sw pm : List Nat)
    (s : BotState) (uid : Nat) (p : Bool) :
    (retest_cmd QUIZ sw pm s uid p).cumulative = s.cumulative := by
  unfold retest_cmd
  split
  · rfl
  · dsimp only
    split
    · rfl
    · rw [snp_cumulative]

theorem quiz_cmd_cumulative (QUIZ : List Question) (chatId : Int) (p : Bool)
    (u : User) (sh pm : List Nat) (ok : Bool) (s : BotState) :
    (quiz_cmd QUIZ chatId p u sh pm ok s).cumulative = s.cumulative := by
  unfold quiz_cmd
  split
  · rfl
  · split
    · cases alookup chatId s.groupSessions <;> simp only
      · rw [sng_cumulative]
    · rw [snp_cumulative]

theorem quiz_cmd_groupSessions_other (QUIZ : List Question) (c chat : Int)
    (p : Bool) (u : User) (sh pm : List Nat) (ok : Bool) (s : BotState)
    (halive : (alookup chat s.groupSessions).isSome) :
    alookup chat (quiz_cmd QUIZ c p u sh pm ok s).groupSessions =
      alookup chat s.groupSessions := by
  unfold quiz_cmd
  split
  · rfl
  · split
    · cases hc : alookup c s.groupSessions <;> simp only
      · have hne : c ≠ chat := by
          intro hcc
          rw [hcc] at hc
          rw [hc] at halive
          simp at halive
        have hne2 : ¬ chat = c := fun hh => hne hh.symm
        rw [sng_groupSessions_ne QUIZ pm ok _ c chat hne]
        simp [alookup_aset, hne2]
    · rw [snp_groupSessions]

/-- A timer whose chat has no session at all is a strict no-op. -/
theorem job_noop_none (QUIZ : List Question) (pm : List Nat) (ok : Bool)
    (s : BotState) (chat : Int) (sid : Nat)
    (h : alookup chat s.groupSessions = none) :
    _group_next_question_job QUIZ pm ok s chat sid = s := by
  unfold _group_next_question_job
  rw [h]

/-- A timer matching a live session that still has questions left advances
the cursor by one and changes no replies, whatever the transport does. -/
theorem step_timer_advance (QUIZ : List Question) (pm : List Nat) (ok : Bool)
    (s : BotState) (chat : Int) (sid : Nat) (qids : List Nat) (i : Nat)
    (sc : List (Nat × ScoreEntry))
    (h : alookup chat s.groupSessions = some ⟨sid, qids, i, sc⟩)
    (hi : i + 1 < qids.length) :
    alookup chat (step QUIZ s (.timerFire chat sid pm ok)).groupSessions =
      some ⟨sid, qids, i + 1, sc⟩ ∧
    (step QUIZ s (.timerFire chat sid pm ok)).replies = s.replies := by
  show alookup chat (_group_next_question_job QUIZ pm ok s chat sid).groupSessions =
      some ⟨sid, qids, i + 1, sc⟩ ∧
    (_group_next_question_job QUIZ pm ok s chat sid).replies = s.replies
  unfold _group_next_question_job
  rw [h]
  simp only [if_true]
  have hl : alookup chat (aset chat (⟨sid, qids, i + 1, sc⟩ : GroupSession)
      s.groupSessions) = some ⟨sid, qids, i + 1, sc⟩ := by
    simp [alookup_aset]
  constructor
  · rw [sng_post_groupSessions QUIZ pm ok _ chat ⟨sid, qids, i + 1, sc⟩ hl hi]
    exact hl
  · exact sng_post_replies QUIZ pm ok _ chat ⟨sid, qids, i + 1, sc⟩ hl hi

/-- A timer matching a live session whose last question just ran finishes
the session: the scoreboard and the hint are sent and the session is
dropped from the registry. -/
theorem step_timer_complete (QUIZ : List Question) (pm : List Nat) (ok : Bool)
    (s : BotState) (chat : Int) (sid : Nat) (qids : List Nat) (i : Nat)
    (sc : List (Nat × ScoreEntry))
    (h : alookup chat s.groupSessions = some ⟨sid, qids, i, sc⟩)
    (hi : qids.length ≤ i + 1) :
    alookup chat (step QUIZ s (.timerFire chat sid pm ok)).groupSessions = none ∧
    (step QUIZ s (.timerFire chat sid pm ok)).replies = s.replies ++
      [(chat, _format_scoreboard sessionResultsTitle sc 10),
       (chat, leaderboardHintMsg)] := by
  show alookup chat
      (_group_next_question_job QUIZ pm ok s chat sid).groupSessions = none ∧
    (_group_next_question_job QUIZ pm ok s chat sid).replies = s.replies ++
      [(chat, _format_scoreboard sessionResultsTitle sc 10),
       (chat, leaderboardHintMsg)]
  unfold _group_next_question_job
  rw [h]
  simp only [if_true]
  unfold _send_next_group_question
  simp only [alookup_aset, if_true]
  rw [if_pos (by simpa using hi)]
  constructor
  · simp [alookup_adel]
  · rfl

/-- Posting the next private poll binds a fresh poll id, so the binding of
any older poll id is untouched. -/
theorem snp_pollToPrivate_lookup (QUIZ : List Question) (pm : List Nat)
    (s : BotState) (uid p : Nat) (hfresh : p < s.nextPollId) :
    alookup p (send_next_private QUIZ pm s uid).pollToPrivate =
      alookup p s.pollToPrivate := by
  unfold send_next_private
  cases alookup uid s.userState <;> simp only
  split
  · rfl
  · have hne : ¬ p = s.nextPollId := by omega
    simp [alookup_aset, hne]

theorem opa_groupSessions_priv (QUIZ : List Question) (pm : List Nat)
    (s : BotState) (pollId : Nat) (u : User) (o : List Nat)
    (hg : alookup pollId s.pollToGroup = none) :
    (on_poll_answer QUIZ pm s pollId u o).groupSessions = s.groupSessions := by
  unfold on_poll_answer
  rw [hg]
  cases hpp : alookup pollId s.pollToPrivate with
  | none => rfl
  | some meta =>
    dsimp only
    cases hst : alookup meta.uid s.userState with
    | none => rfl
    | some st =>
      dsimp only
      rw [snp_groupSessions]

theorem opa_pollToGroup_priv (QUIZ : List Question) (pm : List Nat)
    (s : BotState) (pollId : Nat) (u : User) (o : List Nat)
    (hg : alookup pollId s.pollToGroup = none) :
    (on_poll_answer QUIZ pm s pollId u o).pollToGroup = s.pollToGroup := by
  unfold on_poll_answer
  rw [hg]
  cases hpp : alookup pollId s.pollToPrivate with
  | none => rfl
  | some meta =>
    dsimp only
    cases hst : alookup meta.uid s.userState with
    | none => rfl
    | some st =>
      dsimp only
      rw [snp_pollToGroup]

theorem opa_cumulative_priv (QUIZ : List Question) (pm : List Nat)
    (s : BotState) (pollId : Nat) (u : User) (o : List Nat)
    (hg : alookup pollId s.pollToGroup = none) :
    (on_poll_answer QUIZ pm s pollId u o).cumulative = s.cumulative := by
  unfold on_poll_answer
  rw [hg]
  cases hpp : alookup pollId s.pollToPrivate with
  | none => rfl
  | some meta =>
    dsimp only
    cases hst : alookup meta.uid s.userState with
    | none => rfl
    | some st =>
      dsimp only
      rw [snp_cumulative]

/-- Processing an answer to a private poll removes its binding for good:
afterwards the poll id (being older than every fresh id) resolves to
nothing. -/
theorem opa_consumes (QUIZ : List Question) (pm : List Nat) (s : BotState)
    (pollId : Nat) (u : User) (o : List Nat)
    (hg : alookup pollId s.pollToGroup = none)
    (hfresh : pollId < s.nextPollId) :
    alookup pollId (on_poll_answer QUIZ pm s pollId u o).pollToPrivate =
      alookup pollId (adel pollId s.pollToPrivate) := by
  unfold on_poll_answer
  rw [hg]
  cases hpp : alookup pollId s.pollToPrivate with
  | none =>
    dsimp only
    rw [hpp]
    simp [alookup_adel]
  | some meta =>
    dsimp only
    cases hst : alookup meta.uid s.userState with
    | none => rfl
    | some st =>
      dsimp only
      rw [snp_pollToPrivate_lookup QUIZ pm]
      exact hfresh

/-- An answer whose poll id is bound nowhere is a strict no-op. -/
theorem opa_noop (QUIZ : List Question) (pm : List Nat) (s : BotState)
    (pollId : Nat) (u : User) (o : List Nat)
    (hg : alookup pollId s.pollToGroup = none)
    (hp : alookup pollId s.pollToPrivate = none) :
    on_poll_answer QUIZ pm s pollId u o = s := by
  unfold on_poll_answer
  rw [hg, hp]

/-! ## C9: private polls are scored at most once -/

/-- C9: the first answer to a private poll consumes its POLL_TO_PRIVATE
binding, and a second answer carrying the same poll id changes nothing at
all (in particular the user's correct count, wrong set and position). -/
theorem claim_C9_private_scored_once (QUIZ : List Question) (s : BotState)
    (p : Nat) (u1 u2 : User) (o1 o2 pm1 pm2 : List Nat) (meta : PrivatePollMeta)
    (hg : alookup p s.pollToGroup = none)
    (_hm : alookup p s.pollToPrivate = some meta)
    (hfresh : p < s.nextPollId) :
    alookup p (step QUIZ s (.pollAnswer p u1 o1 pm1)).pollToPrivate = none ∧
    step QUIZ (step QUIZ s (.pollAnswer p u1 o1 pm1)) (.pollAnswer p u2 o2 pm2) =
      step QUIZ s (.pollAnswer p u1 o1 pm1) := by
  have h1 : alookup p (step QUIZ s (.pollAnswer p u1 o1 pm1)).pollToPrivate = none := by
    show alookup p (on_poll_answer QUIZ pm1 s p u1 o1).pollToPrivate = none
    rw [opa_consumes QUIZ pm1 s p u1 o1 hg hfresh]
    simp [alookup_adel]
  have h2 : alookup p (step QUIZ s (.pollAnswer p u1 o1 pm1)).pollToGroup = none := by
    show alookup p (on_poll_answer QUIZ pm1 s p u1 o1).pollToGroup = none
    rw [opa_pollToGroup_priv QUIZ pm1 s p u1 o1 hg]
    exact hg
  exact ⟨h1, opa_noop QUIZ pm2 _ p u2 o2 h2 h1⟩

/-- Witness for C9: user 7 answers poll 50 of their one-question private
run twice. -/
theorem claim_C9_private_scored_once_witness :
    alookup 50 (step [⟨"one", ["a", "b"], 0⟩]
        ⟨[(7, ⟨[0], 0, [], 0, 1, "full", none, []⟩)], [(50, ⟨7, 0, 0⟩)], [], [],
          [], 51, 0, [], []⟩
        (.pollAnswer 50 ⟨7, "u", "", ""⟩ [0] [0, 1])).pollToPrivate = none ∧
    step [⟨"one", ["a", "b"], 0⟩]
        (step [⟨"one", ["a", "b"], 0⟩]
          ⟨[(7, ⟨[0], 0, [], 0, 1, "full", none, []⟩)], [(50, ⟨7, 0, 0⟩)], [], [],
            [], 51, 0, [], []⟩
          (.pollAnswer 50 ⟨7, "u", "", ""⟩ [0] [0, 1]))
        (.pollAnswer 50 ⟨7, "u", "", ""⟩ [1] [0, 1]) =
      step [⟨"one", ["a", "b"], 0⟩]
        ⟨[(7, ⟨[0], 0, [], 0, 1, "full", none, []⟩)], [(50, ⟨7, 0, 0⟩)], [], [],
          [], 51, 0, [], []⟩
        (.pollAnswer 50 ⟨7, "u", "", ""⟩ [0] [0, 1]) :=
  claim_C9_private_scored_once [⟨"one", ["a", "b"], 0⟩]
    ⟨[(7, ⟨[0], 0, [], 0, 1, "full", none, []⟩)], [(50, ⟨7, 0, 0⟩)], [], [],
      [], 51, 0, [], []⟩
    50 ⟨7, "u", "", ""⟩ ⟨7, "u", "", ""⟩ [0] [1] [0, 1] [0, 1] ⟨7, 0, 0⟩
    (by decide) (by decide) (by decide)

/-! ## C10: the cumulative ledger mirrors counted session answers -/


theorem add_cum_self (chatId : Int) (u : User) (delta : Int)
    (scores : List (Int × List (Nat × ScoreEntry))) :
    cumScore (add_group_point_cumulative chatId u delta scores) chatId u.id =
      some ⟨_display_name_from_user u,
        ((cumScore scores chatId u.id).getD
          ⟨_display_name_from_user u, 0⟩).score + delta⟩ := by
  unfold cumScore add_group_point_cumulative
  simp [alookup_aset]

theorem add_cum_other (chatId : Int) (u : User) (delta : Int)
    (scores : List (Int × List (Nat × ScoreEntry))) (chat : Int) (uid : Nat)
    (hne : ¬ (chat = chatId ∧ uid = u.id)) :
    cumScore (add_group_point_cumulative chatId u delta scores) chat uid =
      cumScore scores chat uid := by
  unfold cumScore add_group_point_cumulative
  by_cases hc : chat = chatId
  · subst hc
    have hu : ¬ uid = u.id := fun h => hne ⟨rfl, h⟩
    simp [alookup_aset, hu]
  · simp [alookup_aset, hc]

theorem job_cumulative (QUIZ : List Question) (pm : List Nat) (ok : Bool)
    (s : BotState) (c : Int) (sid : Nat) :
    (_group_next_question_job QUIZ pm ok s c sid).cumulative = s.cumulative := by
  unfold _group_next_question_job
  cases alookup c s.groupSessions with
  | none => rfl
  | some sess =>
    dsimp only
    split
    · rw [sng_cumulative]
    · rfl

theorem leaderboard_cumulative (s : BotState) (c : Int) :
    (leaderboard_cmd s c).cumulative = s.cumulative := by
  unfold leaderboard_cmd
  dsimp only
  split <;> rfl

/-- C10: when a group answer is counted, the participant's session entry
and their cumulative entry are both increased by exactly one in the same
step, the display name being refreshed in both; every event other than
the group-wide reset either leaves a cumulative entry exactly unchanged or
is precisely a counted correct group answer of that participant in that
chat and raises the entry by exactly one — so over any run a cumulative
score grows by exactly the number of counted correct answers — and no such
event ever lowers a cumulative entry. -/
theorem claim_C10_cumulative_mirror (QUIZ : List Question) (s : BotState) :
    (∀ (p : Nat) (u : User) (o pm : List Nat) (meta : GroupPollMeta)
        (sess : GroupSession),
      alookup p s.pollToGroup = some meta →
      alookup meta.chatId s.groupSessions = some sess →
      sess.sessionId = meta.sessionId →
      o.head? = some meta.correctOptionId →
      alookup meta.chatId (step QUIZ s (.pollAnswer p u o pm)).groupSessions =
        some ⟨sess.sessionId, sess.qids, sess.idx,
          aset u.id ⟨_display_name_from_user u,
            ((alookup u.id sess.scores).getD
              ⟨_display_name_from_user u, 0⟩).score + 1⟩ sess.scores⟩ ∧
      cumScore (step QUIZ s (.pollAnswer p u o pm)).cumulative meta.chatId u.id =
        some ⟨_display_name_from_user u,
          ((cumScore s.cumulative meta.chatId u.id).getD
            ⟨_display_name_from_user u, 0⟩).score + 1⟩) ∧
    (∀ (e : Event) (chat : Int) (uid : Nat),
      (∀ b, e ≠ Event.resetScoresCmd chat b) →
      cumScore (step QUIZ s e).cumulative chat uid =
        cumScore s.cumulative chat uid ∨
      ∃ p u o pm meta sess,
        e = Event.pollAnswer p u o pm ∧
        alookup p s.pollToGroup = some meta ∧
        meta.chatId = chat ∧ u.id = uid ∧
        alookup chat s.groupSessions = some sess ∧
        sess.sessionId = meta.sessionId ∧
        o.head? = some meta.correctOptionId ∧
        cumScore (step QUIZ s e).cumulative chat uid =
          some ⟨_display_name_from_user u,
            ((cumScore s.cumulative chat uid).getD
              ⟨_display_name_from_user u, 0⟩).score + 1⟩) ∧
    (∀ (e : Event) (chat : Int) (uid : Nat) (entry : ScoreEntry),
      cumScore s.cumulative chat uid = some entry →
      (∀ b, e ≠ Event.resetScoresCmd chat b) →
      ∃ entry1, cumScore (step QUIZ s e).cumulative chat uid = some entry1 ∧
        entry.score ≤ entry1.score) := by
  refine ⟨?_, ?_, ?_⟩
  · intro p u o pm meta sess hmeta hsess hsid hcho
    show alookup meta.chatId (on_poll_answer QUIZ pm s p u o).groupSessions =
        some _ ∧
      cumScore (on_poll_answer QUIZ pm s p u o).cumulative meta.chatId u.id = some _
    unfold on_poll_answer
    rw [hmeta]
    dsimp only
    rw [hsess]
    dsimp only
    rw [if_pos ⟨hsid, hcho⟩]
    constructor
    · simp [alookup_aset]
    · exact add_cum_self meta.chatId u 1 s.cumulative
  · intro e chat uid hnotreset
    cases e with
    | quizCmd c pp u sh pm ok =>
      left
      simp only [step]
      rw [show (quiz_cmd QUIZ c pp u sh pm ok s).cumulative = s.cumulative from
        quiz_cmd_cumulative QUIZ c pp u sh pm ok s]
    | retestCmd uid2 pp sw pm =>
      left
      simp only [step]
      rw [show (retest_cmd QUIZ sw pm s uid2 pp).cumulative = s.cumulative from
        retest_cumulative QUIZ sw pm s uid2 pp]
    | pollAnswer pid u o pm =>
      simp only [step]
      cases hgx : alookup pid s.pollToGroup with
      | none =>
        left
        rw [show (on_poll_answer QUIZ pm s pid u o).cumulative = s.cumulative from
          opa_cumulative_priv QUIZ pm s pid u o hgx]
      | some meta =>
        unfold on_poll_answer
        rw [hgx]
        dsimp only
        cases hsx : alookup meta.chatId s.groupSessions with
        | none =>
          left
          rfl
        | some sess =>
          dsimp only
          split
          · rename_i hcond
            by_cases hk : chat = meta.chatId ∧ uid = u.id
            · right
              obtain ⟨hk1, hk2⟩ := hk
              refine ⟨pid, u, o, pm, meta, sess, rfl, hgx, hk1.symm, hk2.symm,
                ?_, hcond.1, hcond.2, ?_⟩
              · rw [hk1]
                exact hsx
              · rw [hk1, hk2]
                exact add_cum_self meta.chatId u 1 s.cumulative
            · left
              exact add_cum_other meta.chatId u 1 s.cumulative chat uid hk
          · left
            rfl
    | timerFire c sid pm ok =>
      left
      simp only [step]
      rw [show (_group_next_question_job QUIZ pm ok s c sid).cumulative = s.cumulative
        from job_cumulative QUIZ pm ok s c sid]
    | leaderboardCmd c =>
      left
      simp only [step]
      rw [show (leaderboard_cmd s c).cumulative = s.cumulative from
        leaderboard_cumulative s c]
    | resetScoresCmd c b =>
      have hcc : c ≠ chat := by
        intro h
        exact hnotreset b (by rw [h])
      left
      simp only [step]
      unfold reset_scores_cmd
      split
      · rfl
      · unfold cumScore reset_group_scores
        rw [alookup_adel]
        rw [if_neg (fun h => hcc h.symm)]
  · intro e chat uid entry hentry hnotreset
    cases e with
    | quizCmd c pp u sh pm ok =>
      refine ⟨entry, ?_, le_refl _⟩
      show cumScore (quiz_cmd QUIZ c pp u sh pm ok s).cumulative chat uid = some entry
      rw [show (quiz_cmd QUIZ c pp u sh pm ok s).cumulative = s.cumulative from
        quiz_cmd_cumulative QUIZ c pp u sh pm ok s]
      exact hentry
    | retestCmd uid2 pp sw pm =>
      refine ⟨entry, ?_, le_refl _⟩
      show cumScore (retest_cmd QUIZ sw pm s uid2 pp).cumulative chat uid = some entry
      rw [show (retest_cmd QUIZ sw pm s uid2 pp).cumulative = s.cumulative from
        retest_cumulative QUIZ sw pm s uid2 pp]
      exact hentry
    | pollAnswer pid u o pm =>
      show ∃ entry1,
        cumScore (on_poll_answer QUIZ pm s pid u o).cumulative chat uid = some entry1 ∧
          entry.score ≤ entry1.score
      cases hgx : alookup pid s.pollToGroup with
      | none =>
        refine ⟨entry, ?_, le_refl _⟩
        rw [show (on_poll_answer QUIZ pm s pid u o).cumulative = s.cumulative from
          opa_cumulative_priv QUIZ pm s pid u o hgx]
        exact hentry
      | some meta =>
        unfold on_poll_answer
        rw [hgx]
        dsimp only
        cases hsx : alookup meta.chatId s.groupSessions with
        | none => exact ⟨entry, hentry, le_refl _⟩
        | some sess =>
          dsimp only
          split
          · by_cases hk : chat = meta.chatId ∧ uid = u.id
            · obtain ⟨hk1, hk2⟩ := hk
              refine ⟨⟨_display_name_from_user u,
                ((cumScore s.cumulative meta.chatId u.id).getD
                  ⟨_display_name_from_user u, 0⟩).score + 1⟩, ?_, ?_⟩
              · rw [hk1, hk2]
                exact add_cum_self meta.chatId u 1 s.cumulative
              · rw [hk1, hk2] at hentry
                rw [hentry]
                simp
            · refine ⟨entry, ?_, le_refl _⟩
              rw [add_cum_other meta.chatId u 1 s.cumulative chat uid hk]
              exact hentry
          · exact ⟨entry, hentry, le_refl _⟩
    | timerFire c sid pm ok =>
      refine ⟨entry, ?_, le_refl _⟩
      show cumScore (_group_next_question_job QUIZ pm ok s c sid).cumulative chat uid =
        some entry
      rw [show (_group_next_question_job QUIZ pm ok s c sid).cumulative = s.cumulative
        from job_cumulative QUIZ pm ok s c sid]
      exact hentry
    | leaderboardCmd c =>
      refine ⟨entry, ?_, le_refl _⟩
      show cumScore (leaderboard_cmd s c).cumulative chat uid = some entry
      rw [show (leaderboard_cmd s c).cumulative = s.cumulative from
        leaderboard_cumulative s c]
      exact hentry
    | resetScoresCmd c b =>
      have hcc : c ≠ chat := by
        intro h
        exact hnotreset b (by rw [h])
      refine ⟨entry, ?_, le_refl _⟩
      show cumScore (reset_scores_cmd s c b).cumulative chat uid = some entry
      unfold reset_scores_cmd
      split
      · exact hentry
      · unfold cumScore reset_group_scores
        rw [alookup_adel]
        rw [if_neg (fun h => hcc h.symm)]
        exact hentry

/-- Witness for C10: a counted answer in chat 0 bumps both the session
entry and the cumulative entry of user 7 from 2 to 3. -/
theorem claim_C10_cumulative_mirror_witness :
    alookup 0 (step [⟨"one", ["a", "b"], 0⟩]
        ⟨[], [], [(100, ⟨0, 1, 5⟩)], [(0, ⟨5, [0], 0, [(7, ⟨"@u", 2⟩)]⟩)],
          [(0, [(7, ⟨"@u", 2⟩)])], 101, 6, [], []⟩
        (.pollAnswer 100 ⟨7, "u", "", ""⟩ [1] [])).groupSessions =
      some ⟨5, [0], 0,
        aset 7 ⟨_display_name_from_user ⟨7, "u", "", ""⟩,
          ((alookup 7 [(7, (⟨"@u", 2⟩ : ScoreEntry))]).getD
            ⟨_display_name_from_user ⟨7, "u", "", ""⟩, 0⟩).score + 1⟩
          [(7, ⟨"@u", 2⟩)]⟩ ∧
    cumScore (step [⟨"one", ["a", "b"], 0⟩]
        ⟨[], [], [(100, ⟨0, 1, 5⟩)], [(0, ⟨5, [0], 0, [(7, ⟨"@u", 2⟩)]⟩)],
          [(0, [(7, ⟨"@u", 2⟩)])], 101, 6, [], []⟩
        (.pollAnswer 100 ⟨7, "u", "", ""⟩ [1] [])).cumulative 0 7 =
      some ⟨_display_name_from_user ⟨7, "u", "", ""⟩,
        ((cumScore [(0, [(7, ⟨"@u", 2⟩)])] 0 7).getD
          ⟨_display_name_from_user ⟨7, "u", "", ""⟩, 0⟩).score + 1⟩ :=
  (claim_C10_cumulative_mirror [⟨"one", ["a", "b"], 0⟩]
    ⟨[], [], [(100, ⟨0, 1, 5⟩)], [(0, ⟨5, [0], 0, [(7, ⟨"@u", 2⟩)]⟩)],
      [(0, [(7, ⟨"@u", 2⟩)])], 101, 6, [], []⟩).1
    100 ⟨7, "u", "", ""⟩ [1] [] ⟨0, 1, 5⟩ ⟨5, [0], 0, [(7, ⟨"@u", 2⟩)]⟩
    (by decide) (by decide) (by decide) (by decide)

/-! ## C2: lifecycle of the position cursor -/

theorem leaderboard_groupSessions (s : BotState) (c : Int) :
    (leaderboard_cmd s c).groupSessions = s.groupSessions := by
  unfold leaderboard_cmd
  dsimp only
  split <;> rfl

theorem reset_groupSessions (s : BotState) (c : Int) (b : Bool) :
    (reset_scores_cmd s c b).groupSessions = s.groupSessions := by
  unfold reset_scores_cmd
  split <;> rfl

/-- Where a session seen after one event comes from: either the chat
already had a session, of which it keeps the id and the question list,
with the cursor kept or advanced by one (and advanced only while strictly
inside the list); or the chat had none and the session is fresh with
cursor 0. -/
theorem step_session_origin (QUIZ : List Question) (s : BotState) (chat : Int)
    (e : Event) (sess1 : GroupSession)
    (h1 : alookup chat (step QUIZ s e).groupSessions = some sess1) :
    (∃ sess, alookup chat s.groupSessions = some sess ∧
      sess1.sessionId = sess.sessionId ∧ sess1.qids = sess.qids ∧
      (sess1.idx = sess.idx ∨
        (sess1.idx = sess.idx + 1 ∧ sess1.idx < sess1.qids.length))) ∨
    (alookup chat s.groupSessions = none ∧ sess1.idx = 0) := by
  cases e with
  | quizCmd c pp u sh pm ok =>
    simp only [step] at h1
    unfold quiz_cmd at h1
    split at h1
    · exact Or.inl ⟨sess1, h1, rfl, rfl, Or.inl rfl⟩
    · split at h1
      · rcases hc : alookup c s.groupSessions with _ | sess0
        · rw [hc] at h1
          dsimp only at h1
          by_cases hcc : c = chat
          · subst hcc
            unfold _send_next_group_question at h1
            rw [show alookup c (aset c
                (⟨s.nextSessionId, sh.take (min GROUP_QUIZ_LEN QUIZ.length), 0, []⟩ :
                  GroupSession) s.groupSessions) =
              some ⟨s.nextSessionId, sh.take (min GROUP_QUIZ_LEN QUIZ.length), 0, []⟩
              from by simp [alookup_aset]] at h1
            dsimp only at h1
            split at h1
            · rw [show alookup c (adel c (aset c
                  (⟨s.nextSessionId, sh.take (min GROUP_QUIZ_LEN QUIZ.length), 0, []⟩ :
                    GroupSession) s.groupSessions)) = none from by simp [alookup_adel]] at h1
              exact absurd h1 (by simp)
            · split at h1 <;>
                · rw [show alookup c (aset c
                      (⟨s.nextSessionId, sh.take (min GROUP_QUIZ_LEN QUIZ.length), 0, []⟩ :
                        GroupSession) s.groupSessions) =
                    some ⟨s.nextSessionId, sh.take (min GROUP_QUIZ_LEN QUIZ.length), 0, []⟩
                    from by simp [alookup_aset]] at h1
                  cases h1
                  exact Or.inr ⟨hc, rfl⟩
          · rw [sng_groupSessions_ne QUIZ pm ok _ c chat hcc] at h1
            have hne2 : ¬ chat = c := fun hh => hcc hh.symm
            rw [show alookup chat (aset c
                (⟨s.nextSessionId, sh.take (min GROUP_QUIZ_LEN QUIZ.length), 0, []⟩ :
                  GroupSession) s.groupSessions) = alookup chat s.groupSessions
              from by simp [alookup_aset, hne2]] at h1
            exact Or.inl ⟨sess1, h1, rfl, rfl, Or.inl rfl⟩
        · rw [hc] at h1
          dsimp only at h1
          exact Or.inl ⟨sess1, h1, rfl, rfl, Or.inl rfl⟩
      · rw [snp_groupSessions] at h1
        dsimp only at h1
        exact Or.inl ⟨sess1, h1, rfl, rfl, Or.inl rfl⟩
  | retestCmd uid pp sw pm =>
    simp only [step] at h1
    rw [retest_groupSessions] at h1
    exact Or.inl ⟨sess1, h1, rfl, rfl, Or.inl rfl⟩
  | pollAnswer pid u o pm =>
    simp only [step] at h1
    rcases hg : alookup pid s.pollToGroup with _ | meta
    · rw [opa_groupSessions_priv QUIZ pm s pid u o hg] at h1
      exact Or.inl ⟨sess1, h1, rfl, rfl, Or.inl rfl⟩
    · unfold on_poll_answer at h1
      rw [hg] at h1
      dsimp only at h1
      rcases hs2 : alookup meta.chatId s.groupSessions with _ | sess2
      · rw [hs2] at h1
        dsimp only at h1
        exact Or.inl ⟨sess1, h1, rfl, rfl, Or.inl rfl⟩
      · rw [hs2] at h1
        dsimp only at h1
        split at h1
        · rw [alookup_aset] at h1
          split at h1
          · rename_i hx
            cases h1
            rw [← hx] at hs2
            exact Or.inl ⟨sess2, hs2, rfl, rfl, Or.inl rfl⟩
          · exact Or.inl ⟨sess1, h1, rfl, rfl, Or.inl rfl⟩
        · exact Or.inl ⟨sess1, h1, rfl, rfl, Or.inl rfl⟩
  | timerFire c sid pm ok =>
    simp only [step] at h1
    unfold _group_next_question_job at h1
    rcases hc : alookup c s.groupSessions with _ | sc
    · rw [hc] at h1
      exact Or.inl ⟨sess1, h1, rfl, rfl, Or.inl rfl⟩
    · rw [hc] at h1
      dsimp only at h1
      split at h1
      · by_cases hcc : c = chat
        · subst hcc
          unfold _send_next_group_question at h1
          rw [show alookup c (aset c
              (⟨sc.sessionId, sc.qids, sc.idx + 1, sc.scores⟩ : GroupSession)
              s.groupSessions) =
            some ⟨sc.sessionId, sc.qids, sc.idx + 1, sc.scores⟩
            from by simp [alookup_aset]] at h1
          dsimp only at h1
          split at h1
          · rw [show alookup c (adel c (aset c
                (⟨sc.sessionId, sc.qids, sc.idx + 1, sc.scores⟩ : GroupSession)
                s.groupSessions)) = none from by simp [alookup_adel]] at h1
            exact absurd h1 (by simp)
          · rename_i hfin
            have hlt : sc.idx + 1 < sc.qids.length := by omega
            split at h1 <;>
              · rw [show alookup c (aset c
                    (⟨sc.sessionId, sc.qids, sc.idx + 1, sc.scores⟩ : GroupSession)
                    s.groupSessions) =
                  some ⟨sc.sessionId, sc.qids, sc.idx + 1, sc.scores⟩
                  from by simp [alookup_aset]] at h1
                cases h1
                exact Or.inl ⟨sc, hc, rfl, rfl, Or.inr ⟨rfl, hlt⟩⟩
        · rw [sng_groupSessions_ne QUIZ pm ok _ c chat hcc] at h1
          have hne2 : ¬ chat = c := fun hh => hcc hh.symm
          rw [show alookup chat (aset c
              (⟨sc.sessionId, sc.qids, sc.idx + 1, sc.scores⟩ : GroupSession)
              s.groupSessions) = alookup chat s.groupSessions
            from by simp [alookup_aset, hne2]] at h1
          exact Or.inl ⟨sess1, h1, rfl, rfl, Or.inl rfl⟩
      · exact Or.inl ⟨sess1, h1, rfl, rfl, Or.inl rfl⟩
  | leaderboardCmd c =>
    simp only [step] at h1
    rw [leaderboard_groupSessions] at h1
    exact Or.inl ⟨sess1, h1, rfl, rfl, Or.inl rfl⟩
  | resetScoresCmd c b =>
    simp only [step] at h1
    rw [reset_groupSessions] at h1
    exact Or.inl ⟨sess1, h1, rfl, rfl, Or.inl rfl⟩

/-- Behaviour of a run of timers of one live session: while fewer matching
timers have fired than questions remain, the session is alive with the
cursor advanced by exactly the number of firings and nothing has been
said; the firing that advances the cursor to the end posts the scoreboard
and the hint and drops the session. -/
theorem runTimers_spec (QUIZ : List Question) (chat : Int) (sid : Nat)
    (envs : List (List Nat × Bool)) :
    ∀ (s : BotState) (qids : List Nat) (i : Nat) (sc : List (Nat × ScoreEntry)),
      alookup chat s.groupSessions = some ⟨sid, qids, i, sc⟩ →
      i + envs.length ≤ qids.length →
      (i + envs.length < qids.length →
        alookup chat (runTimers QUIZ chat sid envs s).groupSessions =
          some ⟨sid, qids, i + envs.length, sc⟩ ∧
        (runTimers QUIZ chat sid envs s).replies = s.replies) ∧
      (envs ≠ [] → i + envs.length = qids.length →
        alookup chat (runTimers QUIZ chat sid envs s).groupSessions = none ∧
        (runTimers QUIZ chat sid envs s).replies = s.replies ++
          [(chat, _format_scoreboard sessionResultsTitle sc 10),
           (chat, leaderboardHintMsg)]) := by
  induction envs with
  | nil =>
    intro s qids i sc h _
    constructor
    · intro _
      exact ⟨by simpa using h, rfl⟩
    · intro hne _
      exact absurd rfl hne
  | cons env rest ih =>
    intro s qids i sc h hle
    obtain ⟨pm, ok⟩ := env
    by_cases hstep : i + 1 < qids.length
    · obtain ⟨ha1, ha2⟩ :=
        step_timer_advance QUIZ pm ok s chat sid qids i sc h hstep
      have hle2 : i + 1 + rest.length ≤ qids.length := by
        simp only [List.length_cons] at hle
        omega
      have hrec := ih (step QUIZ s (.timerFire chat sid pm ok)) qids (i + 1) sc ha1 hle2
      constructor
      · intro hlt
        have hlt2 : i + 1 + rest.length < qids.length := by
          simp only [List.length_cons] at hlt
          omega
        obtain ⟨hb1, hb2⟩ := hrec.1 hlt2
        refine ⟨?_, ?_⟩
        · show alookup chat (runTimers QUIZ chat sid rest
            (step QUIZ s (.timerFire chat sid pm ok))).groupSessions = _
          rw [hb1]
          have harith : i + 1 + rest.length = i + (rest.length + 1) := by omega
          rw [harith]
          rfl
        · show (runTimers QUIZ chat sid rest
            (step QUIZ s (.timerFire chat sid pm ok))).replies = s.replies
          rw [hb2, ha2]
      · intro _ heq
        cases rest with
        | nil =>
          exfalso
          simp only [List.length_cons, List.length_nil] at heq
          omega
        | cons e2 rest2 =>
          have heq2 : i + 1 + (e2 :: rest2).length = qids.length := by
            simp only [List.length_cons] at heq ⊢
            omega
          obtain ⟨hb1, hb2⟩ := hrec.2 (by simp) heq2
          refine ⟨hb1, ?_⟩
          show (runTimers QUIZ chat sid (e2 :: rest2)
            (step QUIZ s (.timerFire chat sid pm ok))).replies = _
          rw [hb2, ha2]
    · have hrest : rest = [] := by
        cases rest with
        | nil => rfl
        | cons a b =>
          exfalso
          simp only [List.length_cons] at hle
          omega
      subst hrest
      have hieq : qids.length ≤ i + 1 := by omega
      obtain ⟨hc1, hc2⟩ := step_timer_complete QUIZ pm ok s chat sid qids i sc h hieq
      constructor
      · intro hlt
        exfalso
        simp only [List.length_cons, List.length_nil] at hlt
        omega
      · intro _ _
        exact ⟨hc1, hc2⟩

/-- C2: per event, a chat's session keeps its identity and question list
and its cursor stays or advances by one, so the cursor is monotonically
non-decreasing; the bound cursor ≤ number of questions is preserved by
every event; and a live session is completed by exactly the number of
still-pending questions of matching timer firings — any fewer leave it
alive with the cursor advanced by that count, and the last one emits the
scoreboard and removes the session from the registry. -/
theorem claim_C2_position_lifecycle (QUIZ : List Question) (s : BotState) :
    (∀ (chat : Int) (sess : GroupSession) (e : Event) (sess1 : GroupSession),
      alookup chat s.groupSessions = some sess →
      alookup chat (step QUIZ s e).groupSessions = some sess1 →
      sess1.sessionId = sess.sessionId ∧ sess1.qids = sess.qids ∧
        (sess1.idx = sess.idx ∨ sess1.idx = sess.idx + 1)) ∧
    ((∀ c ss, alookup c s.groupSessions = some ss → ss.idx ≤ ss.qids.length) →
      ∀ (e : Event) (c : Int) (ss : GroupSession),
        alookup c (step QUIZ s e).groupSessions = some ss →
        ss.idx ≤ ss.qids.length) ∧
    (∀ (chat : Int) (sid : Nat) (qids : List Nat) (i : Nat)
        (sc : List (Nat × ScoreEntry)) (envs : List (List Nat × Bool)),
      alookup chat s.groupSessions = some ⟨sid, qids, i, sc⟩ →
      i + envs.length ≤ qids.length →
      (i + envs.length < qids.length →
        alookup chat (runTimers QUIZ chat sid envs s).groupSessions =
          some ⟨sid, qids, i + envs.length, sc⟩ ∧
        (runTimers QUIZ chat sid envs s).replies = s.replies) ∧
      (envs ≠ [] → i + envs.length = qids.length →
        alookup chat (runTimers QUIZ chat sid envs s).groupSessions = none ∧
        (runTimers QUIZ chat sid envs s).replies = s.replies ++
          [(chat, _format_scoreboard sessionResultsTitle sc 10),
           (chat, leaderboardHintMsg)])) := by
  refine ⟨?_, ?_, ?_⟩
  · intro chat sess e sess1 h h1
    rcases step_session_origin QUIZ s chat e sess1 h1 with
      ⟨sess0, h0, hsid, hqids, hidx⟩ | ⟨hn, _⟩
    · rw [h] at h0
      cases h0
      exact ⟨hsid, hqids, hidx.imp id And.left⟩
    · rw [h] at hn
      exact absurd hn (by simp)
  · intro hinv e c ss h1
    rcases step_session_origin QUIZ s c e ss h1 with
      ⟨sess0, h0, _, hqids, hidx⟩ | ⟨_, hzero⟩
    · rcases hidx with hidx | ⟨_, hlt⟩
      · rw [hidx, hqids]
        exact hinv c sess0 h0
      · exact Nat.le_of_lt hlt
    · rw [hzero]
      exact Nat.zero_le _
  · intro chat sid qids i sc envs h hle
    exact runTimers_spec QUIZ chat sid envs s qids i sc h hle

/-- Witness for C2: a one-question live session of chat 0 is finished by a
single matching timer firing, emitting the scoreboard. -/
theorem claim_C2_position_lifecycle_witness :
    alookup 0 (runTimers [⟨"one", ["a", "b"], 0⟩] 0 5 [([0, 1], true)]
        ⟨[], [], [], [(0, ⟨5, [0], 0, []⟩)], [], 101, 6, [], []⟩).groupSessions =
      none ∧
    (runTimers [⟨"one", ["a", "b"], 0⟩] 0 5 [([0, 1], true)]
        ⟨[], [], [], [(0, ⟨5, [0], 0, []⟩)], [], 101, 6, [], []⟩).replies =
      ([] : List (Int × String)) ++
        [(0, _format_scoreboard sessionResultsTitle [] 10), (0, leaderboardHintMsg)] :=
  ((claim_C2_position_lifecycle [⟨"one", ["a", "b"], 0⟩]
      ⟨[], [], [], [(0, ⟨5, [0], 0, []⟩)], [], 101, 6, [], []⟩).2.2
    0 5 [0] 0 [] [([0, 1], true)] (by decide) (by decide)).2
    (by simp) (by decide)

end QuizBot
